import Mathlib

/-!
Congestion control engine (`libraries/networking/src/udt/CongestionControl.h`).

A shallow embedding of the classes declared in `CongestionControl.h`:
`CongestionControl`, `CongestionControlVirtualFactory`,
`CongestionControlFactory<T>` and `DefaultCC`.

Conventions of the embedding.

* `int` members and arguments are `Int`.  The header performs no arithmetic on
  them (only stores and one comparison), so no operation can overflow and every
  statement quantified over `Int` covers the 32-bit values.
* The `double` members (`_packetSendPeriod`, `_congestionWindowSize`,
  `_maxCongestionWindowSize`, `_lastDecreasePeriod`) are `Int` as well: the only
  values the header ever stores in them are the initialisers `1.0`, `16.0`,
  `0.0`, `1` and the `int` argument of `setMaxCongestionWindowSize`, all of which
  a `double` represents exactly.
* A member function `void f(args)` is a function from the object before the call
  (and the arguments) to the object after it.
-/

namespace udt

/-- The constant `DEFAULT_SYN_INTERVAL` (10 ms, in microseconds). -/
def DEFAULT_SYN_INTERVAL : Int := 10000

/-- Modelled from the spec: `SequenceNumber.h` is not among the sources.  The
spec describes a sequence number as an unsigned value from a fixed-width modular
space; the header only stores such values, so the carried number is all that is
kept here. -/
structure SequenceNumber where
  value : Nat
  deriving DecidableEq, Repr

/-- The data members of `class CongestionControl`, in declaration order. -/
structure CongestionControl where
  _packetSendPeriod : Int
  _congestionWindowSize : Int
  _bandwidth : Int
  _maxCongestionWindowSize : Int
  _mss : Int
  _sendCurrSeqNum : SequenceNumber
  _receiveRate : Int
  _rtt : Int
  _ackPeriod : Int
  _ackInterval : Int
  _synInterval : Int
  _userDefinedRto : Bool
  _rto : Int
  deriving DecidableEq, Repr

namespace CongestionControl

/-- The default constructor `CongestionControl() {}`: every member takes its
default member initialiser.  `seq0` is the value a default-constructed
`SequenceNumber` holds (its constructor lives in the absent `SequenceNumber.h`). -/
def new (seq0 : SequenceNumber) : CongestionControl where
  _packetSendPeriod := 1
  _congestionWindowSize := 16
  _bandwidth := 0
  _maxCongestionWindowSize := 0
  _mss := 0
  _sendCurrSeqNum := seq0
  _receiveRate := 0
  _rtt := 0
  _ackPeriod := 0
  _ackInterval := 0
  _synInterval := DEFAULT_SYN_INTERVAL
  _userDefinedRto := false
  _rto := -1

/-- The constructor `CongestionControl(int synInterval) : _synInterval(synInterval) {}`. -/
def ofSynInterval (seq0 : SequenceNumber) (synInterval : Int) : CongestionControl :=
  { new seq0 with _synInterval := synInterval }

/-- The accessor `int synInterval() const { return _synInterval; }`. -/
def synInterval (c : CongestionControl) : Int := c._synInterval

/-- The virtual `init() {}` of the base class: empty body. -/
def init (c : CongestionControl) : CongestionControl := c

/-- The virtual `close() {}` of the base class: empty body. -/
def close (c : CongestionControl) : CongestionControl := c

/-- The virtual `onAck(SequenceNumber ackNum) {}` of the base class: empty body. -/
def onAck (c : CongestionControl) (_ackNum : SequenceNumber) : CongestionControl := c

/-- The virtual `onLoss(SequenceNumber rangeStart, SequenceNumber rangeEnd) {}` of
the base class: empty body. -/
def onLoss (c : CongestionControl) (_rangeStart _rangeEnd : SequenceNumber) :
    CongestionControl := c

/-- The protected setter
`setAckTimer(int period) { _ackPeriod = (period > _synInterval) ? _synInterval : period; }`. -/
def setAckTimer (c : CongestionControl) (period : Int) : CongestionControl :=
  { c with _ackPeriod := if period > c._synInterval then c._synInterval else period }

/-- The protected setter `setAckInterval(int ackInterval) { _ackInterval = ackInterval; }`. -/
def setAckInterval (c : CongestionControl) (ackInterval : Int) : CongestionControl :=
  { c with _ackInterval := ackInterval }

/-- The protected setter `setRto(int rto) { _userDefinedRto = true; _rto = rto; }`. -/
def setRto (c : CongestionControl) (rto : Int) : CongestionControl :=
  { c with _userDefinedRto := true, _rto := rto }

/-- The private setter `setMSS(int mss) { _mss = mss; }`. -/
def setMSS (c : CongestionControl) (mss : Int) : CongestionControl :=
  { c with _mss := mss }

/-- The private setter
`setMaxCongestionWindowSize(int window) { _maxCongestionWindowSize = window; }`. -/
def setMaxCongestionWindowSize (c : CongestionControl) (window : Int) : CongestionControl :=
  { c with _maxCongestionWindowSize := window }

/-- The private setter `setBandwidth(int bandwidth) { _bandwidth = bandwidth; }`. -/
def setBandwidth (c : CongestionControl) (bandwidth : Int) : CongestionControl :=
  { c with _bandwidth := bandwidth }

/-- The private setter
`setSendCurrentSequenceNumber(SequenceNumber seqNum) { _sendCurrSeqNum = seqNum; }`. -/
def setSendCurrentSequenceNumber (c : CongestionControl) (seqNum : SequenceNumber) :
    CongestionControl :=
  { c with _sendCurrSeqNum := seqNum }

/-- The private setter `setReceiveRate(int rate) { _receiveRate = rate; }`. -/
def setReceiveRate (c : CongestionControl) (rate : Int) : CongestionControl :=
  { c with _receiveRate := rate }

/-- The private setter `setRTT(int rtt) { _rtt = rtt; }`. -/
def setRTT (c : CongestionControl) (rtt : Int) : CongestionControl :=
  { c with _rtt := rtt }

end CongestionControl

/-- One call of a member function of `CongestionControl`, with its arguments:
the three protected setters, the six private (connection-side) setters and the
four virtual event handlers. -/
inductive Op where
  | setAckTimer (period : Int)
  | setAckInterval (ackInterval : Int)
  | setRto (rto : Int)
  | setMSS (mss : Int)
  | setMaxCongestionWindowSize (window : Int)
  | setBandwidth (bandwidth : Int)
  | setSendCurrentSequenceNumber (seqNum : SequenceNumber)
  | setReceiveRate (rate : Int)
  | setRTT (rtt : Int)
  | init
  | close
  | onAck (ackNum : SequenceNumber)
  | onLoss (rangeStart rangeEnd : SequenceNumber)
  deriving DecidableEq, Repr

namespace CongestionControl

/-- The object after one call. -/
def step (c : CongestionControl) : Op → CongestionControl
  | .setAckTimer period => c.setAckTimer period
  | .setAckInterval ackInterval => c.setAckInterval ackInterval
  | .setRto rto => c.setRto rto
  | .setMSS mss => c.setMSS mss
  | .setMaxCongestionWindowSize window => c.setMaxCongestionWindowSize window
  | .setBandwidth bandwidth => c.setBandwidth bandwidth
  | .setSendCurrentSequenceNumber seqNum => c.setSendCurrentSequenceNumber seqNum
  | .setReceiveRate rate => c.setReceiveRate rate
  | .setRTT rtt => c.setRTT rtt
  | .init => c.init
  | .close => c.close
  | .onAck ackNum => c.onAck ackNum
  | .onLoss rangeStart rangeEnd => c.onLoss rangeStart rangeEnd

/-- The object after a sequence of calls, made from left to right. -/
def run (c : CongestionControl) (ops : List Op) : CongestionControl :=
  ops.foldl step c

/-- Whether every call `setMaxCongestionWindowSize(window)` of a sequence applied to
`c` has a `window` that is 0 or at least the `_congestionWindowSize` of the object
at the time of the call. -/
def maximaCoverWindow (c : CongestionControl) : List Op → Bool
  | [] => true
  | .setMaxCongestionWindowSize window :: ops =>
    (decide (window = 0) || decide (c._congestionWindowSize ≤ window))
      && maximaCoverWindow (c.setMaxCongestionWindowSize window) ops
  | op :: ops => maximaCoverWindow (c.step op) ops

end CongestionControl

/-- The data members of `class DefaultCC : public CongestionControl`.
`_lastRCTime` is a `time_point`, kept as its tick count since the clock's epoch. -/
structure DefaultCC extends CongestionControl where
  _lastRCTime : Int
  _slowStart : Bool
  _slowStartLastAck : SequenceNumber
  _loss : Bool
  _lastDecreaseMaxSeq : SequenceNumber
  _lastDecreasePeriod : Int
  _nakCount : Int
  _decRandom : Int
  _avgNAKNum : Int
  _decCount : Int
  deriving DecidableEq, Repr

namespace DefaultCC

/-- The constructor `DefaultCC() {}`: the base sub-object is built by
`CongestionControl()`, every member takes its default member initialiser (a
default-constructed `time_point` is the epoch). -/
def new (seq0 : SequenceNumber) : DefaultCC where
  toCongestionControl := CongestionControl.new seq0
  _lastRCTime := 0
  _slowStart := true
  _slowStartLastAck := seq0
  _loss := false
  _lastDecreaseMaxSeq := seq0
  _lastDecreasePeriod := 1
  _nakCount := 0
  _decRandom := 1
  _avgNAKNum := 0
  _decCount := 0

/-- What `onAck(ackNum)` runs on a `DefaultCC`.  `DefaultCC` declares
`onACK(SequenceNumber)`, a different name from the base class's virtual
`onAck(SequenceNumber)`, so `onAck` is not overridden: the call runs
`CongestionControl::onAck` on the base sub-object and touches no member of
`DefaultCC`. -/
def onAck (d : DefaultCC) (ackNum : SequenceNumber) : DefaultCC :=
  { d with toCongestionControl := d.toCongestionControl.onAck ackNum }

/-- What `close()` runs on a `DefaultCC`: `DefaultCC` does not declare `close`,
so the call runs `CongestionControl::close` on the base sub-object. -/
def close (d : DefaultCC) : DefaultCC :=
  { d with toCongestionControl := d.toCongestionControl.close }

end DefaultCC

/-- The class template `CongestionControlFactory<T>` (here `T = DefaultCC`): it
declares no data member. -/
structure CongestionControlFactory where
  deriving DecidableEq, Repr

namespace CongestionControlVirtualFactory

/-- The static member `synInterval() { return DEFAULT_SYN_INTERVAL; }`. -/
def synInterval : Int := DEFAULT_SYN_INTERVAL

end CongestionControlVirtualFactory

namespace CongestionControlFactory

/-- The member `create() { return std::unique_ptr<T>(new T()); }` for
`T = DefaultCC`: the object the returned pointer owns. -/
def create (_f : CongestionControlFactory) (seq0 : SequenceNumber) : DefaultCC :=
  DefaultCC.new seq0

end CongestionControlFactory

/-!
The handlers of `DefaultCC`, from the specification.

`DefaultCC::init` and `DefaultCC::onLoss` are declared in `CongestionControl.h` and
defined in a file that is not among the sources.  What follows takes them from
section 4.3 of the specification.
-/

/-- Modelled from the spec: what sections 4.3 and 9 of the specification leave to the
implementer. -/
structure SpecChoices where
  /-- The "conservative default" send period `init()` takes when no bandwidth
  estimate is available. -/
  defaultSendPeriod : ℚ
  /-- The send period after a decrease, from the one before it ("correspondingly
  increase `packetSendPeriod`"). -/
  increasedSendPeriod : ℚ → ℚ
  /-- Whether the first sequence number "is at or before" the second in the circular
  order. -/
  atOrBefore : SequenceNumber → SequenceNumber → Bool
  /-- The sequence number "one less than the first sequence number to be sent". -/
  beforeFirstSequenceNumber : SequenceNumber
  /-- The default of the ACK timer period. -/
  defaultAckTimerPeriod : Int
  /-- The default of the ACK packet interval. -/
  defaultAckPacketInterval : Int

/-- A choice for worked examples: the default send period is 1 microsecond, a
decrease doubles the send period, sequence numbers are compared by their values, the
first one to be sent is 1, and the ACK defaults are 10 and 2. -/
def SpecChoices.doubling : SpecChoices where
  defaultSendPeriod := 1
  increasedSendPeriod := fun p => 2 * p
  atOrBefore := fun a b => decide (a.value ≤ b.value)
  beforeFirstSequenceNumber := ⟨0⟩
  defaultAckTimerPeriod := 10
  defaultAckPacketInterval := 2

/-- Modelled from the spec: the state of a `DefaultCC` engine (section 3): the shared
parameters and the algorithm state that `init` and `onLoss` read or write.  The two
quantities the algorithm divides, `packetSendPeriod` and `congestionWindowSize`, are
rationals.  Of the counters of the randomised suppression only `nakCount` is kept:
the specification gives no rule for the others. -/
structure SpecDefaultCC where
  packetSendPeriod : ℚ
  congestionWindowSize : ℚ
  bandwidthEstimate : Int
  maxCongestionWindowSize : Int
  maxSegmentSize : Int
  sendCurrentSequenceNumber : SequenceNumber
  receiveRate : Int
  roundTripTime : Int
  synInterval : Int
  ackTimerPeriod : Int
  ackPacketInterval : Int
  slowStart : Bool
  lossFlag : Bool
  lastDecreaseMaxSeq : SequenceNumber
  lastDecreasePeriod : ℚ
  nakCount : Int

namespace SpecDefaultCC

/-- Modelled from the spec: the engine `create()` returns, "in its pre-`init()`
state"; the values are the member initialisers of the header. -/
def new (seq0 : SequenceNumber) : SpecDefaultCC where
  packetSendPeriod := 1
  congestionWindowSize := 16
  bandwidthEstimate := 0
  maxCongestionWindowSize := 0
  maxSegmentSize := 0
  sendCurrentSequenceNumber := seq0
  receiveRate := 0
  roundTripTime := 0
  synInterval := DEFAULT_SYN_INTERVAL
  ackTimerPeriod := 0
  ackPacketInterval := 0
  slowStart := true
  lossFlag := false
  lastDecreaseMaxSeq := seq0
  lastDecreasePeriod := 1
  nakCount := 0

/-- Modelled from the spec: `init()`, section 4.3: "`slowStart = true`;
`congestionWindowSize = 16` packets; `packetSendPeriod` derived as
`1e6 / (16 × estimated link rate in packets/sec)` when a bandwidth estimate is
available, else a conservative default; `lastDecreaseMaxSeq` set to one less than the
first sequence number to be sent; ACK timer/interval set to defaults bounded by
`synInterval`".  An estimate is available when it is positive ("division by an
estimated rate of zero must fall back", "rate values are clamped to be strictly
positive"). -/
def init (choices : SpecChoices) (s : SpecDefaultCC) : SpecDefaultCC :=
  { s with
    slowStart := true
    congestionWindowSize := 16
    packetSendPeriod :=
      if 0 < s.bandwidthEstimate then 1000000 / (16 * (s.bandwidthEstimate : ℚ))
      else choices.defaultSendPeriod
    lastDecreaseMaxSeq := choices.beforeFirstSequenceNumber
    ackTimerPeriod := min choices.defaultAckTimerPeriod s.synInterval
    ackPacketInterval := min choices.defaultAckPacketInterval s.synInterval }

/-- Modelled from the spec: `onLoss(rangeStart, rangeEnd)`, section 4.3.  Step 1: "if
`rangeEnd` is at or before `lastDecreaseMaxSeq`", the loss is ignored.  Step 2:
"set the loss flag; if in slow start, exit it immediately.  Apply a multiplicative
decrease to `congestionWindowSize` (halve it, clamped to a floor of e.g. 2 packets)
and correspondingly increase `packetSendPeriod`.  Record
`lastDecreaseMaxSeq = sendCurrentSequenceNumber`,
`lastDecreasePeriod = packetSendPeriod`."  Step 3: "increment a NAK counter; only
apply the decrease once per randomly-sized cluster of loss notifications";
`applyDecrease` tells whether this notification is one to which the decrease is
applied. -/
def onLoss (choices : SpecChoices) (s : SpecDefaultCC) (_rangeStart rangeEnd : SequenceNumber)
    (applyDecrease : Bool) : SpecDefaultCC :=
  if choices.atOrBefore rangeEnd s.lastDecreaseMaxSeq then s
  else
    let s1 : SpecDefaultCC :=
      { s with lossFlag := true, slowStart := false, nakCount := s.nakCount + 1 }
    if applyDecrease then
      { s1 with
        congestionWindowSize := max 2 (s1.congestionWindowSize / 2)
        packetSendPeriod := choices.increasedSendPeriod s1.packetSendPeriod
        lastDecreaseMaxSeq := s1.sendCurrentSequenceNumber
        lastDecreasePeriod := choices.increasedSendPeriod s1.packetSendPeriod }
    else s1

end SpecDefaultCC

/-- One call on a `DefaultCC` engine through the interface of `CongestionControl`:
an event handler or a setter of the connection, with its arguments.  For `onLoss`,
`applyDecrease` is the outcome of the randomised suppression. -/
inductive SpecOp where
  | init
  | close
  | onAck (ackNum : SequenceNumber)
  | onLoss (rangeStart rangeEnd : SequenceNumber) (applyDecrease : Bool)
  | setMSS (mss : Int)
  | setMaxCongestionWindowSize (window : Int)
  | setBandwidth (bandwidth : Int)
  | setSendCurrentSequenceNumber (seqNum : SequenceNumber)
  | setReceiveRate (rate : Int)
  | setRTT (rtt : Int)

namespace SpecDefaultCC

/-- The engine after one call.  `init` and `onLoss` are the handlers modelled from the
specification; `close` and `onAck` run the empty bodies of `CongestionControl`, which
`DefaultCC` does not override, and the setters are those of the header. -/
def step (choices : SpecChoices) (s : SpecDefaultCC) : SpecOp → SpecDefaultCC
  | .init => s.init choices
  | .close => s
  | .onAck _ => s
  | .onLoss rangeStart rangeEnd applyDecrease => s.onLoss choices rangeStart rangeEnd applyDecrease
  | .setMSS mss => { s with maxSegmentSize := mss }
  | .setMaxCongestionWindowSize window => { s with maxCongestionWindowSize := window }
  | .setBandwidth bandwidth => { s with bandwidthEstimate := bandwidth }
  | .setSendCurrentSequenceNumber seqNum => { s with sendCurrentSequenceNumber := seqNum }
  | .setReceiveRate rate => { s with receiveRate := rate }
  | .setRTT rtt => { s with roundTripTime := rtt }

/-- The engine after a sequence of calls, made from left to right. -/
def run (choices : SpecChoices) (s : SpecDefaultCC) (ops : List SpecOp) : SpecDefaultCC :=
  ops.foldl (step choices) s

end SpecDefaultCC

end udt

/-!
Voxel entity (`libraries/entities-renderer/src/RenderablePolyVoxEntityItem.cpp`).

A shallow embedding of the voxel-editing part of `RenderablePolyVoxEntityItem`:
the volume, the user-space accessors, the on-voxel counter and the
compression round trip.

Conventions of the embedding.

* Voxel values (`uint8_t`) and bytes of a `QByteArray` are `Nat` below 256; the
  code only stores them and compares them with 0.
* A `float` is kept as the rational number it holds.  The two sums the code forms
  with a size component (`size + 1`, `size - 1`) are rounded to the nearest
  `float`, ties to the even significand; infinities and NaN are left out.
  Conversion of a `float` to an integer type discards the fractional part; its
  result is the one of the source when it fits the integer type.
* Code that is not in `RenderablePolyVoxEntityItem.cpp` (the base class
  `PolyVoxEntityItem`, the constants of `EntityItem`, Qt's serialisation) enters
  through the parameters collected in `Externals`.
* Mesh extraction (`getModel`) is kept only for its effect on
  `_needsModelReload`.
-/

namespace polyvox

/-- A `glm::vec3`: three `float` components. -/
structure Vec3 where
  x : ℚ
  y : ℚ
  z : ℚ
  deriving DecidableEq

/-- A `PolyVox::Vector3DInt32`: three `int32_t` components. -/
structure Vector3DInt32 where
  x : Int
  y : Int
  z : Int
  deriving DecidableEq, Repr

/-- Conversion of a `float` to an integer type (`int32_t`, `int`, `quint16`): the
fractional part is discarded. -/
def floatToInt (q : ℚ) : Int := Int.tdiv q.num q.den

/-- The quotient `m / d` rounded to the nearest integer, a tie to the even one. -/
def roundHalfEven (m d : Nat) : Nat :=
  if 2 * (m % d) < d then m / d
  else if d < 2 * (m % d) then m / d + 1
  else if m / d % 2 = 0 then m / d else m / d + 1

/-- The number of doublings, `fuel` at most on top of `s`, after which `a / d` is
still below 2^24 and one more doubling would reach it. -/
def scaleUp (a d : Nat) : Nat → Nat → Nat
  | 0, s => s
  | fuel + 1, s => if a * 2 ^ (s + 1) < 2 ^ 24 * d then scaleUp a d fuel (s + 1) else s

/-- The number of halvings, from `t` on, after which `a / d` is below 2^24. -/
def scaleDown (a d : Nat) : Nat → Nat → Nat
  | 0, t => t
  | fuel + 1, t => if a < 2 ^ 24 * d * 2 ^ t then t else scaleDown a d fuel (t + 1)

/-- The `float` nearest to a rational, a tie going to the even significand.  A
`float` is an integer of magnitude below 2^24 (the significand) times a power of
two, 2^-149 for the smallest ones: a magnitude below 2^24 is doubled as long as it
stays below 2^24, 149 times at most, rounded to an integer and scaled back; a
larger one is halved until it is below 2^24, rounded and scaled back.  A result of
2^128 or more stands for an infinity, which is not modelled. -/
def roundToFloat (q : ℚ) : ℚ :=
  let a := q.num.natAbs
  let d := q.den
  let sign : Int := if q.num < 0 then -1 else 1
  if a < 2 ^ 24 * d then
    mkRat (sign * roundHalfEven (a * 2 ^ scaleUp a d 149 0) d) (2 ^ scaleUp a d 149 0)
  else
    mkRat (sign * (roundHalfEven a (d * 2 ^ scaleDown a d 104 0) * 2 ^ scaleDown a d 104 0)) 1

/-- The `float` sum `q + k` of a size component and an integer constant: the exact
sum `num / den + k = (num + k * den) / den`, rounded. -/
def floatAddInt (q : ℚ) (k : Int) : ℚ := roundToFloat (mkRat (q.num + k * q.den) q.den)

/-- The bound of a loop `for (int i = 0; i < q; i++)` whose limit `q` is a
`float`: an `int` is below `q` exactly when it is below the ceiling of `q`.  (The
comparison converts `i` to `float`, which is exact below 2^24.) -/
def floatLoopBound (q : ℚ) : Int := ⌈q⌉

/-- The enumeration `PolyVoxEntityItem::PolyVoxSurfaceStyle`. -/
inductive PolyVoxSurfaceStyle where
  | SURFACE_MARCHING_CUBES
  | SURFACE_CUBIC
  | SURFACE_EDGED_CUBIC
  deriving DecidableEq, Repr

/-- Conversion of a value to `quint16`. -/
def toQuint16 (v : Int) : Nat := (v % 65536).toNat

/-- A product computed in 32-bit `int` arithmetic, wrapped to the `int` range. -/
def toInt32 (v : Int) : Int := (v + 2147483648) % 4294967296 - 2147483648

/-- The loop `for (int i = 0; i < bound; i++) body`, threading the state the body
changes. -/
def forLoop {σ : Type} (bound : Int) (body : σ → Int → σ) (s : σ) : σ :=
  (List.range bound.toNat).foldl (fun (s : σ) (i : Nat) => body s (i : Int)) s

/-- The nest `for z < zBound { for y < yBound { for x < xBound { body } } }`. -/
def forZYX {σ : Type} (zBound yBound xBound : Int) (body : σ → Int → Int → Int → σ)
    (s : σ) : σ :=
  forLoop zBound
    (fun s z => forLoop yBound (fun s y => forLoop xBound (fun s x => body s x y z) s) s) s

/-- The part of `PolyVox::SimpleVolume<uint8_t>` (an external library) the entity
uses: the inclusive corners of its valid region, its voxels and its border
value. -/
structure SimpleVolume where
  lowerCorner : Vector3DInt32
  upperCorner : Vector3DInt32
  voxels : Int → Int → Int → Nat
  borderValue : Nat

namespace SimpleVolume

/-- The constructor `SimpleVolume(Region(lowCorner, highCorner))`: every voxel is
default-constructed (0). -/
def new (lowCorner highCorner : Vector3DInt32) : SimpleVolume :=
  { lowerCorner := lowCorner, upperCorner := highCorner, voxels := fun _ _ _ => 0,
    borderValue := 0 }

/-- The member `getWidth()`: the corners are inclusive. -/
def getWidth (vol : SimpleVolume) : Int := vol.upperCorner.x - vol.lowerCorner.x + 1

/-- The member `getHeight()`. -/
def getHeight (vol : SimpleVolume) : Int := vol.upperCorner.y - vol.lowerCorner.y + 1

/-- The member `getDepth()`. -/
def getDepth (vol : SimpleVolume) : Int := vol.upperCorner.z - vol.lowerCorner.z + 1

/-- Whether the valid region contains a point. -/
def containsPoint (vol : SimpleVolume) (x y z : Int) : Bool :=
  decide (vol.lowerCorner.x ≤ x) && decide (x ≤ vol.upperCorner.x)
    && decide (vol.lowerCorner.y ≤ y) && decide (y ≤ vol.upperCorner.y)
    && decide (vol.lowerCorner.z ≤ z) && decide (z ≤ vol.upperCorner.z)

/-- The member `getVoxelAt(x, y, z)`: the border value outside the valid region. -/
def getVoxelAt (vol : SimpleVolume) (x y z : Int) : Nat :=
  if vol.containsPoint x y z then vol.voxels x y z else vol.borderValue

/-- The member `setVoxelAt(x, y, z, value)`. -/
def setVoxelAt (vol : SimpleVolume) (x y z : Int) (value : Nat) : SimpleVolume :=
  { vol with voxels := fun a b c => if a = x ∧ b = y ∧ c = z then value else vol.voxels a b c }

/-- The member `setBorderValue(value)`. -/
def setBorderValue (vol : SimpleVolume) (value : Nat) : SimpleVolume :=
  { vol with borderValue := value }

end SimpleVolume

/-- The `QByteArray` held in `_voxelData`, seen through what
`decompressVolumeData` reads from it: the three `quint16` sizes and the result of
`qUncompress` on the rest.  Qt's `QDataStream`, `qCompress` and `qUncompress` are
external; writing and reading are taken as mutually inverse, so the array that
`compressVolumeData` writes is the one made of the sizes and the payload it was
given. -/
structure VoxelData where
  voxelXSize : Nat
  voxelYSize : Nat
  voxelZSize : Nat
  uncompressedData : List Nat
  deriving DecidableEq, Repr

namespace VoxelData

/-- The byte at the index where `compressVolumeData` puts the user voxel
`(x, y, z)`: `z * voxelYSize * voxelXSize + y * voxelXSize + x`. -/
def writtenAt (d : VoxelData) (x y z : Int) : Nat :=
  d.uncompressedData.getD (z * d.voxelYSize * d.voxelXSize + y * d.voxelXSize + x).toNat 0

/-- The byte at the index from which `decompressVolumeData` takes the user voxel
`(x, y, z)`: `(z * voxelYSize * voxelXSize) + (y * voxelZSize) + x`. -/
def readAt (d : VoxelData) (x y z : Int) : Nat :=
  d.uncompressedData.getD
    ((z * d.voxelYSize * d.voxelXSize) + (y * d.voxelZSize) + x).toNat 0

end VoxelData

/-- What `RenderablePolyVoxEntityItem.cpp` uses without defining it. -/
structure Externals where
  /-- The constant `MAX_VOXEL_DIMENSION` of `PolyVoxEntityItem`. -/
  MAX_VOXEL_DIMENSION : Nat
  /-- The flag `EntityItem::DIRTY_SHAPE`. -/
  DIRTY_SHAPE : Nat
  /-- The flag `EntityItem::DIRTY_MASS`. -/
  DIRTY_MASS : Nat
  /-- The `size()` of the serialised array holding the given sizes and payload. -/
  serializedSize : VoxelData → Nat
  /-- The size `PolyVoxEntityItem::setVoxelVolumeSize` stores for a requested one. -/
  baseVoxelVolumeSize : Vec3 → Vec3
  /-- The array `PolyVoxEntityItem::setVoxelData` stores for a given one. -/
  baseVoxelData : VoxelData → VoxelData

/-- The members of the base class `PolyVoxEntityItem` (and of `EntityItem`) that
`RenderablePolyVoxEntityItem.cpp` reads or writes. -/
structure PolyVoxEntityItem where
  _voxelVolumeSize : Vec3
  _voxelData : VoxelData
  _voxelSurfaceStyle : PolyVoxSurfaceStyle
  _locked : Bool
  _dirtyFlags : Nat

/-- The members of `RenderablePolyVoxEntityItem` the voxel code reads or writes.
`_volData` is a pointer, `none` when null.  `onCountAssertHeld` is not a member:
it records that every `assert(_onCount >= 0)` executed so far evaluated to
true. -/
structure RenderablePolyVoxEntityItem extends PolyVoxEntityItem where
  _volData : Option SimpleVolume
  _onCount : Int
  _needsModelReload : Bool
  onCountAssertHeld : Bool

/-- The two values of the enumeration `ShapeType` that `getShapeType` returns. -/
inductive ShapeType where
  | SHAPE_TYPE_NONE
  | SHAPE_TYPE_COMPOUND
  deriving DecidableEq, Repr

/-- The function `inUserBounds(vol, surfaceStyle, x, y, z)`; `x`, `y`, `z` are user
voxel coordinates. -/
def inUserBounds (vol : SimpleVolume) (surfaceStyle : PolyVoxSurfaceStyle) (x y z : Int) :
    Bool :=
  match surfaceStyle with
  | .SURFACE_MARCHING_CUBES | .SURFACE_CUBIC =>
    if x < 0 ∨ y < 0 ∨ z < 0 ∨
        x ≥ vol.getWidth ∨ y ≥ vol.getHeight ∨ z ≥ vol.getDepth then false else true
  | .SURFACE_EDGED_CUBIC =>
    if x < 0 ∨ y < 0 ∨ z < 0 ∨
        x ≥ vol.getWidth - 2 ∨ y ≥ vol.getHeight - 2 ∨ z ≥ vol.getDepth - 2 then false
    else true

/-- The function `inBounds(vol, x, y, z)`; `x`, `y`, `z` are volume coordinates. -/
def inBounds (vol : SimpleVolume) (x y z : Int) : Bool :=
  !(decide (x < 0) || decide (y < 0) || decide (z < 0) || decide (x ≥ vol.getWidth)
    || decide (y ≥ vol.getHeight) || decide (z ≥ vol.getDepth))

namespace RenderablePolyVoxEntityItem

/-- The member `getVoxel(x, y, z)`.  The source asserts `_volData`; with a null
pointer, which no caller below produces, 0 stands for the result. -/
def getVoxel (e : RenderablePolyVoxEntityItem) (x y z : Int) : Nat :=
  match e._volData with
  | none => 0
  | some vol =>
    if !inUserBounds vol e._voxelSurfaceStyle x y z then 0
    else if e._voxelSurfaceStyle = .SURFACE_EDGED_CUBIC then vol.getVoxelAt (x + 1) (y + 1) (z + 1)
    else vol.getVoxelAt x y z

/-- The member `updateOnCount(x, y, z, toValue)`. -/
def updateOnCount (e : RenderablePolyVoxEntityItem) (x y z : Int) (toValue : Nat) :
    RenderablePolyVoxEntityItem :=
  match e._volData with
  | none => e
  | some vol =>
    if !inUserBounds vol e._voxelSurfaceStyle x y z then e
    else
      let uVoxelValue := e.getVoxel x y z
      if toValue ≠ 0 then
        if uVoxelValue = 0 then { e with _onCount := e._onCount + 1 } else e
      else
        if uVoxelValue ≠ 0 then
          { e with _onCount := e._onCount - 1,
                   onCountAssertHeld := e.onCountAssertHeld && decide (e._onCount - 1 ≥ 0) }
        else e

/-- The member `setVoxelInternal(x, y, z, toValue)`. -/
def setVoxelInternal (e : RenderablePolyVoxEntityItem) (x y z : Int) (toValue : Nat) :
    RenderablePolyVoxEntityItem :=
  match e._volData with
  | none => e
  | some vol =>
    if !inUserBounds vol e._voxelSurfaceStyle x y z then e
    else
      let e1 := e.updateOnCount x y z toValue
      match e1._volData with
      | none => e1
      | some vol1 =>
        if e1._voxelSurfaceStyle = .SURFACE_EDGED_CUBIC then
          { e1 with _volData := some (vol1.setVoxelAt (x + 1) (y + 1) (z + 1) toValue) }
        else
          { e1 with _volData := some (vol1.setVoxelAt x y z toValue) }

/-- The member `getModel()`, reduced to its last statement
`_needsModelReload = false`. -/
def getModel (e : RenderablePolyVoxEntityItem) : RenderablePolyVoxEntityItem :=
  { e with _needsModelReload := false }

/-- The member `decompressVolumeData()`.  A read of `uncompressedData` past its
end yields 0, as `QByteRef` does. -/
def decompressVolumeData (ext : Externals) (e : RenderablePolyVoxEntityItem) :
    RenderablePolyVoxEntityItem :=
  let voxelXSize := e._voxelData.voxelXSize
  let voxelYSize := e._voxelData.voxelYSize
  let voxelZSize := e._voxelData.voxelZSize
  if voxelXSize = 0 ∨ voxelXSize > ext.MAX_VOXEL_DIMENSION ∨
      voxelYSize = 0 ∨ voxelYSize > ext.MAX_VOXEL_DIMENSION ∨
      voxelZSize = 0 ∨ voxelZSize > ext.MAX_VOXEL_DIMENSION then e
  else
    let rawSize : Int := toInt32 ((voxelXSize : Int) * voxelYSize * voxelZSize)
    let uncompressedData := e._voxelData.uncompressedData
    if (uncompressedData.length : Int) ≠ rawSize then e
    else
      let e1 := forZYX voxelZSize voxelYSize voxelXSize
        (fun (e : RenderablePolyVoxEntityItem) x y z =>
          let uncompressedIndex : Int := (z * voxelYSize * voxelXSize) + (y * voxelZSize) + x
          let value := uncompressedData.getD uncompressedIndex.toNat 0
          (e.updateOnCount x y z value).setVoxelInternal x y z value) e
      getModel
        { e1 with
          _dirtyFlags := e1._dirtyFlags ||| (ext.DIRTY_SHAPE ||| ext.DIRTY_MASS),
          _needsModelReload := true }

/-- The array `newVoxelData` that `compressVolumeData()` serialises: the sizes
converted to `quint16` and the voxels of the user space, the one at `(x, y, z)`
at index `z * voxelYSize * voxelXSize + y * voxelXSize + x`. -/
def newVoxelData (e : RenderablePolyVoxEntityItem) : VoxelData :=
  let voxelXSize := toQuint16 (floatToInt e._voxelVolumeSize.x)
  let voxelYSize := toQuint16 (floatToInt e._voxelVolumeSize.y)
  let voxelZSize := toQuint16 (floatToInt e._voxelVolumeSize.z)
  let rawSize : Int := toInt32 ((voxelXSize : Int) * voxelYSize * voxelZSize)
  let uncompressedData := forZYX voxelZSize voxelYSize voxelXSize
    (fun (data : List Nat) x y z =>
      let uVoxelValue := e.getVoxel x y z
      let uncompressedIndex : Int := z * voxelYSize * voxelXSize + y * voxelXSize + x
      data.set uncompressedIndex.toNat uVoxelValue)
    (List.replicate rawSize.toNat 0)
  { voxelXSize := voxelXSize, voxelYSize := voxelYSize, voxelZSize := voxelZSize,
    uncompressedData := uncompressedData }

/-- The member `compressVolumeData()`. -/
def compressVolumeData (ext : Externals) (e : RenderablePolyVoxEntityItem) :
    RenderablePolyVoxEntityItem :=
  let newVoxelData := e.newVoxelData
  let e1 :=
    if ext.serializedSize newVoxelData < 1150 then { e with _voxelData := newVoxelData }
    else decompressVolumeData ext e
  { e1 with
    _dirtyFlags := e1._dirtyFlags ||| (ext.DIRTY_SHAPE ||| ext.DIRTY_MASS),
    _needsModelReload := true }

/-- The member `setVoxelVolumeSize(voxelVolumeSize)`. -/
def setVoxelVolumeSize (ext : Externals) (e : RenderablePolyVoxEntityItem)
    (voxelVolumeSize : Vec3) : RenderablePolyVoxEntityItem :=
  if e._volData.isSome ∧ voxelVolumeSize = e._voxelVolumeSize then e
  else
    let e1 : RenderablePolyVoxEntityItem :=
      { e with _voxelVolumeSize := ext.baseVoxelVolumeSize voxelVolumeSize }
    let e2 : RenderablePolyVoxEntityItem := { e1 with _onCount := 0 }
    let vol0 :=
      if e2._voxelSurfaceStyle = .SURFACE_EDGED_CUBIC then
        SimpleVolume.new ⟨0, 0, 0⟩
          ⟨floatToInt (floatAddInt e2._voxelVolumeSize.x 1),
            floatToInt (floatAddInt e2._voxelVolumeSize.y 1),
            floatToInt (floatAddInt e2._voxelVolumeSize.z 1)⟩
      else
        SimpleVolume.new ⟨0, 0, 0⟩
          ⟨floatToInt (floatAddInt e2._voxelVolumeSize.x (-1)),
            floatToInt (floatAddInt e2._voxelVolumeSize.y (-1)),
            floatToInt (floatAddInt e2._voxelVolumeSize.z (-1))⟩
    let vol1 := vol0.setBorderValue 255
    let vol2 := forZYX vol1.getDepth vol1.getHeight vol1.getWidth
      (fun (vol : SimpleVolume) x y z => vol.setVoxelAt x y z 0) vol1
    decompressVolumeData ext { e2 with _volData := some vol2 }

/-- The member `updateVoxelSurfaceStyle(voxelSurfaceStyle)`. -/
def updateVoxelSurfaceStyle (ext : Externals) (e : RenderablePolyVoxEntityItem)
    (voxelSurfaceStyle : PolyVoxSurfaceStyle) : RenderablePolyVoxEntityItem :=
  let e1 :=
    if voxelSurfaceStyle = .SURFACE_EDGED_CUBIC ∨
        e._voxelSurfaceStyle = .SURFACE_EDGED_CUBIC then
      let e2 : RenderablePolyVoxEntityItem :=
        { e with _volData := none, _voxelSurfaceStyle := voxelSurfaceStyle }
      setVoxelVolumeSize ext e2 e2._voxelVolumeSize
    else
      { e with _voxelSurfaceStyle := voxelSurfaceStyle }
  { e1 with _needsModelReload := true }

/-- The member `setVoxelData(voxelData)`. -/
def setVoxelData (ext : Externals) (e : RenderablePolyVoxEntityItem) (voxelData : VoxelData) :
    RenderablePolyVoxEntityItem :=
  if voxelData = e._voxelData then e
  else decompressVolumeData ext { e with _voxelData := ext.baseVoxelData voxelData }

/-- The member `setVoxel(x, y, z, toValue)`. -/
def setVoxel (ext : Externals) (e : RenderablePolyVoxEntityItem) (x y z : Int)
    (toValue : Nat) : RenderablePolyVoxEntityItem :=
  if e._locked then e
  else compressVolumeData ext (e.setVoxelInternal x y z toValue)

/-- The member `setAll(toValue)`. -/
def setAll (ext : Externals) (e : RenderablePolyVoxEntityItem) (toValue : Nat) :
    RenderablePolyVoxEntityItem :=
  if e._locked then e
  else
    compressVolumeData ext
      (forZYX (floatLoopBound e._voxelVolumeSize.z) (floatLoopBound e._voxelVolumeSize.y)
        (floatLoopBound e._voxelVolumeSize.x)
        (fun (e : RenderablePolyVoxEntityItem) x y z => e.setVoxelInternal x y z toValue) e)

/-- The member `setSphereInVolume(center, radius, toValue)`.  `inSphere x y z`
stands for the test `glm::distance(pos, center) <= radius` at the voxel centred
on `(x + 0.5, y + 0.5, z + 0.5)`, which depends on `center` and `radius` only. -/
def setSphereInVolume (ext : Externals) (e : RenderablePolyVoxEntityItem)
    (inSphere : Int → Int → Int → Bool) (toValue : Nat) : RenderablePolyVoxEntityItem :=
  if e._locked then e
  else
    compressVolumeData ext
      (forZYX (floatLoopBound e._voxelVolumeSize.z) (floatLoopBound e._voxelVolumeSize.y)
        (floatLoopBound e._voxelVolumeSize.x)
        (fun (e : RenderablePolyVoxEntityItem) x y z =>
          if inSphere x y z then (e.updateOnCount x y z toValue).setVoxelInternal x y z toValue
          else e) e)

/-- The constructor: the base-class constructor has filled the `PolyVoxEntityItem`
members (`base`), `_volData` is still null, and the body runs
`setVoxelVolumeSize(_voxelVolumeSize)`, which sets `_onCount` before anything
reads it.  `needsModelReload` is the initial value of `_needsModelReload`
(its initialiser is in the absent header). -/
def new (ext : Externals) (base : PolyVoxEntityItem) (needsModelReload : Bool) :
    RenderablePolyVoxEntityItem :=
  setVoxelVolumeSize ext
    { toPolyVoxEntityItem := base, _volData := none, _onCount := 0,
      _needsModelReload := needsModelReload, onCountAssertHeld := true }
    base._voxelVolumeSize

/-- The member `getShapeType()`. -/
def getShapeType (e : RenderablePolyVoxEntityItem) : ShapeType :=
  if e._onCount > 0 then .SHAPE_TYPE_COMPOUND else .SHAPE_TYPE_NONE

/-- The member `setVoxelInVolume(position, toValue)`. -/
def setVoxelInVolume (ext : Externals) (e : RenderablePolyVoxEntityItem) (position : Vec3)
    (toValue : Nat) : RenderablePolyVoxEntityItem :=
  if e._locked then e
  else
    setVoxel ext e (floatToInt position.x) (floatToInt position.y) (floatToInt position.z)
      toValue

/-- The number of voxels with a value other than 0 among those the loops of
`setAll` visit, `x`, `y`, `z` from 0 to below `_voxelVolumeSize`. -/
def userOnCount (e : RenderablePolyVoxEntityItem) : Nat :=
  forZYX (floatLoopBound e._voxelVolumeSize.z) (floatLoopBound e._voxelVolumeSize.y)
    (floatLoopBound e._voxelVolumeSize.x)
    (fun (n : Nat) x y z => if e.getVoxel x y z ≠ 0 then n + 1 else n) 0

/-- The volume is allocated with the corners `setVoxelVolumeSize` gives it for the
current size and surface style. -/
def Sized (e : RenderablePolyVoxEntityItem) : Prop :=
  ∃ vol, e._volData = some vol ∧ vol.lowerCorner = ⟨0, 0, 0⟩ ∧
    vol.upperCorner =
      if e._voxelSurfaceStyle = .SURFACE_EDGED_CUBIC then
        ⟨floatToInt (floatAddInt e._voxelVolumeSize.x 1),
          floatToInt (floatAddInt e._voxelVolumeSize.y 1),
          floatToInt (floatAddInt e._voxelVolumeSize.z 1)⟩
      else
        ⟨floatToInt (floatAddInt e._voxelVolumeSize.x (-1)),
          floatToInt (floatAddInt e._voxelVolumeSize.y (-1)),
          floatToInt (floatAddInt e._voxelVolumeSize.z (-1))⟩

/-- The number of user voxels along an axis of the volume that `setVoxelVolumeSize`
allocates for the size component `q`: the width of the volume, less the two extra
voxels of the edged style. -/
def userWidth (surfaceStyle : PolyVoxSurfaceStyle) (q : ℚ) : Int :=
  if surfaceStyle = .SURFACE_EDGED_CUBIC then floatToInt (floatAddInt q 1) + 1 - 2
  else floatToInt (floatAddInt q (-1)) + 1

/-- The coordinates `(x, y, z)` lie in the user space of the volume allocated for
the current size and surface style. -/
def InUserSpace (e : RenderablePolyVoxEntityItem) (x y z : Int) : Prop :=
  (0 ≤ x ∧ x < userWidth e._voxelSurfaceStyle e._voxelVolumeSize.x)
    ∧ (0 ≤ y ∧ y < userWidth e._voxelSurfaceStyle e._voxelVolumeSize.y)
    ∧ (0 ≤ z ∧ z < userWidth e._voxelSurfaceStyle e._voxelVolumeSize.z)

/-- Two states have the same surface style and size, and volumes with the same
corners and border value. -/
def SameSpace (e0 e : RenderablePolyVoxEntityItem) : Prop :=
  e._voxelSurfaceStyle = e0._voxelSurfaceStyle ∧ e._voxelVolumeSize = e0._voxelVolumeSize ∧
  e._volData.map (fun v => (v.lowerCorner, v.upperCorner, v.borderValue))
    = e0._volData.map (fun v => (v.lowerCorner, v.upperCorner, v.borderValue))

end RenderablePolyVoxEntityItem

/-- One call of a public voxel-editing member of `RenderablePolyVoxEntityItem`,
with its arguments. -/
inductive VoxelOp where
  | setVoxelVolumeSize (voxelVolumeSize : Vec3)
  | updateVoxelSurfaceStyle (voxelSurfaceStyle : PolyVoxSurfaceStyle)
  | setVoxelData (voxelData : VoxelData)
  | setVoxel (x y z : Int) (toValue : Nat)
  | setAll (toValue : Nat)
  | setVoxelInVolume (position : Vec3) (toValue : Nat)
  | setSphereInVolume (inSphere : Int → Int → Int → Bool) (toValue : Nat)

namespace RenderablePolyVoxEntityItem

/-- The entity after one call. -/
def step (ext : Externals) (e : RenderablePolyVoxEntityItem) :
    VoxelOp → RenderablePolyVoxEntityItem
  | .setVoxelVolumeSize voxelVolumeSize => setVoxelVolumeSize ext e voxelVolumeSize
  | .updateVoxelSurfaceStyle voxelSurfaceStyle => updateVoxelSurfaceStyle ext e voxelSurfaceStyle
  | .setVoxelData voxelData => setVoxelData ext e voxelData
  | .setVoxel x y z toValue => setVoxel ext e x y z toValue
  | .setAll toValue => setAll ext e toValue
  | .setVoxelInVolume position toValue => setVoxelInVolume ext e position toValue
  | .setSphereInVolume inSphere toValue => setSphereInVolume ext e inSphere toValue

/-- The entity after a sequence of calls, made from left to right. -/
def run (ext : Externals) (e : RenderablePolyVoxEntityItem) (ops : List VoxelOp) :
    RenderablePolyVoxEntityItem :=
  ops.foldl (step ext) e

end RenderablePolyVoxEntityItem

/-- A choice of the externals for worked examples: `MAX_VOXEL_DIMENSION` is 32,
the two dirty flags are distinct bits, the base-class setters store their
argument, and the serialised size is the largest Qt can produce for a payload of
`n` bytes: 6 bytes of sizes, the 4-byte length of the array, the 4-byte length
header of `qCompress` and zlib's bound `n + n / 4096 + n / 16384 + n / 2^25 + 13`.
Whenever this size is below 1150, so is the real one. -/
def Externals.upperBound : Externals where
  MAX_VOXEL_DIMENSION := 32
  DIRTY_SHAPE := 64
  DIRTY_MASS := 8
  serializedSize := fun d =>
    let n := d.uncompressedData.length
    6 + 4 + 4 + (n + n / 4096 + n / 16384 + n / 33554432 + 13)
  baseVoxelVolumeSize := fun v => v
  baseVoxelData := fun d => d

/-- An unlocked entity of voxel volume size (2, 2, 1) in the marching-cubes style,
as constructed from stored data that holds no sizes and no payload. -/
def entity221 : RenderablePolyVoxEntityItem :=
  RenderablePolyVoxEntityItem.new Externals.upperBound
    { _voxelVolumeSize := ⟨2, 2, 1⟩, _voxelData := ⟨0, 0, 0, []⟩,
      _voxelSurfaceStyle := .SURFACE_MARCHING_CUBES, _locked := false, _dirtyFlags := 0 }
    true

/-- The test `glm::distance(pos, center) <= radius` of `setSphereInVolume` for
`center = (0.5, 0.5, 0.5)` and `radius = 0.25`: the voxel centred on
`(0.5, 0.5, 0.5)` is at distance 0, every other voxel centre at distance 1 or
more. -/
def sphereAtOrigin (x y z : Int) : Bool :=
  decide (x = 0) && decide (y = 0) && decide (z = 0)

/-- A second choice of the externals: as `Externals.upperBound`, but the serialised
size is that of a payload zlib stores without gain, as it does with content it
cannot shrink: 2 bytes of zlib header, 5 of block header and 4 of checksum around
the `n` payload bytes, after the 6 bytes of sizes, the 4-byte length of the array
and the 4-byte length header of `qCompress`. -/
def Externals.stored : Externals :=
  { Externals.upperBound with
    serializedSize := fun d => 6 + 4 + 4 + (d.uncompressedData.length + 11) }

/-- The `i`-th byte of a linear congruential sequence, between 1 and 255:
high-entropy content, which zlib stores without gain. -/
def noiseAt (i : Nat) : Nat :=
  Nat.iterate (fun s => (s * 1103515245 + 12345) % 2147483648) i 42 / 65536 % 255 + 1

/-- A payload of 1200 bytes of such content, for a volume of size (24, 2, 25). -/
def noisePayload : List Nat := (List.range 1200).map noiseAt

/-- Base-class members of an unlocked entity of voxel volume size (24, 2, 25) in the
marching-cubes style whose stored data has the sizes (24, 2, 25) and the payload
`noisePayload`. -/
def noiseBase : PolyVoxEntityItem :=
  { _voxelVolumeSize := ⟨24, 2, 25⟩, _voxelData := ⟨24, 2, 25, noisePayload⟩,
    _voxelSurfaceStyle := .SURFACE_MARCHING_CUBES, _locked := false, _dirtyFlags := 0 }

end polyvox

namespace udt

/-! ## Frame lemmas for single calls and call sequences -/

namespace CongestionControl

theorem step_synInterval (c : CongestionControl) (op : Op) :
    (c.step op)._synInterval = c._synInterval := by
  cases op <;> rfl

theorem step_packetSendPeriod (c : CongestionControl) (op : Op) :
    (c.step op)._packetSendPeriod = c._packetSendPeriod := by
  cases op <;> rfl

theorem step_congestionWindowSize (c : CongestionControl) (op : Op) :
    (c.step op)._congestionWindowSize = c._congestionWindowSize := by
  cases op <;> rfl

theorem run_nil (c : CongestionControl) : c.run [] = c := rfl

theorem run_cons (c : CongestionControl) (op : Op) (ops : List Op) :
    c.run (op :: ops) = (c.step op).run ops := rfl

theorem run_append (c : CongestionControl) (ops ops2 : List Op) :
    c.run (ops ++ ops2) = (c.run ops).run ops2 := by
  simp [run, List.foldl_append]

theorem run_synInterval (c : CongestionControl) (ops : List Op) :
    (c.run ops)._synInterval = c._synInterval := by
  induction ops generalizing c with
  | nil => rfl
  | cons op ops ih => rw [run_cons, ih, step_synInterval]

theorem run_packetSendPeriod (c : CongestionControl) (ops : List Op) :
    (c.run ops)._packetSendPeriod = c._packetSendPeriod := by
  induction ops generalizing c with
  | nil => rfl
  | cons op ops ih => rw [run_cons, ih, step_packetSendPeriod]

theorem run_congestionWindowSize (c : CongestionControl) (ops : List Op) :
    (c.run ops)._congestionWindowSize = c._congestionWindowSize := by
  induction ops generalizing c with
  | nil => rfl
  | cons op ops ih => rw [run_cons, ih, step_congestionWindowSize]

/-- One call keeps `_ackPeriod ≤ _synInterval`. -/
theorem step_ackPeriod_le (c : CongestionControl) (op : Op)
    (h : c._ackPeriod ≤ c._synInterval) :
    (c.step op)._ackPeriod ≤ (c.step op)._synInterval := by
  cases op
  case setAckTimer period =>
    show (if period > c._synInterval then c._synInterval else period) ≤ c._synInterval
    split
    · exact le_refl _
    · omega
  all_goals exact h

theorem run_ackPeriod_le (c : CongestionControl) (ops : List Op)
    (h : c._ackPeriod ≤ c._synInterval) :
    (c.run ops)._ackPeriod ≤ (c.run ops)._synInterval := by
  induction ops generalizing c with
  | nil => exact h
  | cons op ops ih => rw [run_cons]; exact ih _ (step_ackPeriod_le c op h)

end CongestionControl

/-! ## The ACK timer period and the SYN interval -/

/-- C1, as stated, fails: an engine built by `CongestionControl(-1)` has
`_ackPeriod = 0`, which is greater than `synInterval() = -1`, before any call. -/
theorem C1_ackPeriod_exceeds_negative_synInterval :
    ¬ ((CongestionControl.ofSynInterval ⟨0⟩ (-1)).run [])._ackPeriod
        ≤ ((CongestionControl.ofSynInterval ⟨0⟩ (-1)).run []).synInterval := by
  decide

/-- C1, amended: for an engine built by the default constructor, or by
`CongestionControl(synInterval)` with `synInterval ≥ 0`, the ACK timer period is at
most `synInterval()` after every sequence of calls of the header's setters and
event handlers. -/
theorem C1_ackPeriod_le_synInterval (seq0 : SequenceNumber) (ops : List Op) :
    ((CongestionControl.new seq0).run ops)._ackPeriod
        ≤ ((CongestionControl.new seq0).run ops).synInterval
    ∧ ∀ synInterval : Int, 0 ≤ synInterval →
        ((CongestionControl.ofSynInterval seq0 synInterval).run ops)._ackPeriod
          ≤ ((CongestionControl.ofSynInterval seq0 synInterval).run ops).synInterval := by
  refine ⟨?_, fun synInterval h => ?_⟩
  · exact CongestionControl.run_ackPeriod_le _ ops
      (show (0 : Int) ≤ DEFAULT_SYN_INTERVAL by decide)
  · exact CongestionControl.run_ackPeriod_le _ ops h

/-- C1, amended, at a concrete engine: built with SYN interval 50, then
`setAckTimer(70)`, `init()`, `setAckInterval(3)`. -/
theorem C1_ackPeriod_le_synInterval_witness :
    (0 : Int) ≤ 50 ∧
    ((CongestionControl.ofSynInterval ⟨0⟩ 50).run
        [.setAckTimer 70, .init, .setAckInterval 3])._ackPeriod
      ≤ ((CongestionControl.ofSynInterval ⟨0⟩ 50).run
        [.setAckTimer 70, .init, .setAckInterval 3]).synInterval :=
  ⟨by decide,
    (C1_ackPeriod_le_synInterval ⟨0⟩ [.setAckTimer 70, .init, .setAckInterval 3]).2 50
      (by decide)⟩

/-! ## The congestion window and its maximum -/

/-- C2, as stated, fails: after `setMaxCongestionWindowSize(5)` on a default-built
engine the maximum is nonzero (5) and the window is still 16, which exceeds it. -/
theorem C2_window_exceeds_small_maximum :
    ¬ (((CongestionControl.new ⟨0⟩).run [.setMaxCongestionWindowSize 5])._maxCongestionWindowSize ≠ 0 →
        ((CongestionControl.new ⟨0⟩).run [.setMaxCongestionWindowSize 5])._congestionWindowSize
          ≤ ((CongestionControl.new ⟨0⟩).run
              [.setMaxCongestionWindowSize 5])._maxCongestionWindowSize) := by
  decide

/-- A sequence of calls keeps the window within a nonzero maximum when each of its
calls `setMaxCongestionWindowSize(window)` has `window` 0 or at least the window. -/
theorem CongestionControl.run_window_le_maximum (c : CongestionControl) (ops : List Op)
    (hc : c._maxCongestionWindowSize ≠ 0 →
      c._congestionWindowSize ≤ c._maxCongestionWindowSize)
    (hops : c.maximaCoverWindow ops = true) :
    (c.run ops)._maxCongestionWindowSize ≠ 0 →
      (c.run ops)._congestionWindowSize ≤ (c.run ops)._maxCongestionWindowSize := by
  induction ops generalizing c with
  | nil => exact hc
  | cons op ops ih =>
    rw [CongestionControl.run_cons]
    cases op
    case setMaxCongestionWindowSize window =>
      simp only [CongestionControl.maximaCoverWindow, Bool.and_eq_true, Bool.or_eq_true,
        decide_eq_true_eq] at hops
      refine ih _ ?_ hops.2
      intro hne
      rcases hops.1 with h0 | hle
      · exact absurd h0 hne
      · exact hle
    all_goals exact ih _ hc hops

/-- C2, amended.  The window is within a nonzero maximum in every state reached by a
sequence of the calls whose bodies the header gives (the setters and the event
handlers of `CongestionControl`) in which each call
`setMaxCongestionWindowSize(window)` has `window` 0 or at least the window at the time
of the call: from an object built by either constructor, and from any object `c` in
which the bound holds.  One call `setMaxCongestionWindowSize(window)` leaves the bound
holding exactly when `window` is 0 or at least the window. -/
theorem C2_window_le_maximum (seq0 : SequenceNumber) (synInterval : Int)
    (c : CongestionControl) (window : Int) (ops : List Op) :
    ((CongestionControl.new seq0).maximaCoverWindow ops = true →
      ((CongestionControl.new seq0).run ops)._maxCongestionWindowSize ≠ 0 →
        ((CongestionControl.new seq0).run ops)._congestionWindowSize
          ≤ ((CongestionControl.new seq0).run ops)._maxCongestionWindowSize)
    ∧ ((CongestionControl.ofSynInterval seq0 synInterval).maximaCoverWindow ops = true →
      ((CongestionControl.ofSynInterval seq0 synInterval).run ops)._maxCongestionWindowSize ≠ 0 →
        ((CongestionControl.ofSynInterval seq0 synInterval).run ops)._congestionWindowSize
          ≤ ((CongestionControl.ofSynInterval seq0 synInterval).run
              ops)._maxCongestionWindowSize)
    ∧ ((c._maxCongestionWindowSize ≠ 0 →
          c._congestionWindowSize ≤ c._maxCongestionWindowSize) →
      c.maximaCoverWindow ops = true →
      (c.run ops)._maxCongestionWindowSize ≠ 0 →
        (c.run ops)._congestionWindowSize ≤ (c.run ops)._maxCongestionWindowSize)
    ∧ (((c.setMaxCongestionWindowSize window)._maxCongestionWindowSize ≠ 0 →
          (c.setMaxCongestionWindowSize window)._congestionWindowSize
            ≤ (c.setMaxCongestionWindowSize window)._maxCongestionWindowSize)
        ↔ (window = 0 ∨ c._congestionWindowSize ≤ window)) := by
  refine ⟨fun hops => CongestionControl.run_window_le_maximum _ ops (fun h => absurd rfl h) hops,
    fun hops => CongestionControl.run_window_le_maximum _ ops (fun h => absurd rfl h) hops,
    fun hc hops => CongestionControl.run_window_le_maximum c ops hc hops, ?_⟩
  show (window ≠ 0 → c._congestionWindowSize ≤ window) ↔ _
  constructor
  · intro h
    by_cases h0 : window = 0
    · exact Or.inl h0
    · exact Or.inr (h h0)
  · rintro (h0 | hle) hne
    · exact absurd h0 hne
    · exact hle

/-- C2, amended, at a concrete engine: default-built, then
`setMaxCongestionWindowSize(20)`, `onLoss(3, 4)`, `setBandwidth(-3)`,
`setMaxCongestionWindowSize(0)` and `setMaxCongestionWindowSize(16)`. -/
theorem C2_window_le_maximum_witness :
    (CongestionControl.new ⟨0⟩).maximaCoverWindow
        [.setMaxCongestionWindowSize 20, .onLoss ⟨3⟩ ⟨4⟩, .setBandwidth (-3),
          .setMaxCongestionWindowSize 0, .setMaxCongestionWindowSize 16] = true
    ∧ ((CongestionControl.new ⟨0⟩).run
        [.setMaxCongestionWindowSize 20, .onLoss ⟨3⟩ ⟨4⟩, .setBandwidth (-3),
          .setMaxCongestionWindowSize 0,
          .setMaxCongestionWindowSize 16])._maxCongestionWindowSize ≠ 0
    ∧ ((CongestionControl.new ⟨0⟩).run
        [.setMaxCongestionWindowSize 20, .onLoss ⟨3⟩ ⟨4⟩, .setBandwidth (-3),
          .setMaxCongestionWindowSize 0,
          .setMaxCongestionWindowSize 16])._congestionWindowSize
      ≤ ((CongestionControl.new ⟨0⟩).run
        [.setMaxCongestionWindowSize 20, .onLoss ⟨3⟩ ⟨4⟩, .setBandwidth (-3),
          .setMaxCongestionWindowSize 0,
          .setMaxCongestionWindowSize 16])._maxCongestionWindowSize :=
  ⟨by decide, by decide,
    (C2_window_le_maximum ⟨0⟩ 0 (CongestionControl.new ⟨0⟩) 0
      [.setMaxCongestionWindowSize 20, .onLoss ⟨3⟩ ⟨4⟩, .setBandwidth (-3),
        .setMaxCongestionWindowSize 0, .setMaxCongestionWindowSize 16]).1
      (by decide) (by decide)⟩

/-! ## Positivity of the send period and the window floor -/

namespace SpecDefaultCC

theorem run_specOps_nil (choices : SpecChoices) (s : SpecDefaultCC) :
    s.run choices [] = s := rfl

theorem run_specOps_cons (choices : SpecChoices) (s : SpecDefaultCC) (op : SpecOp)
    (ops : List SpecOp) : s.run choices (op :: ops) = (s.step choices op).run choices ops :=
  rfl

/-- The handler `init` leaves a positive send period and a window of 16. -/
theorem init_pos (choices : SpecChoices) (s : SpecDefaultCC)
    (hdefault : 0 < choices.defaultSendPeriod) :
    0 < (s.init choices).packetSendPeriod ∧ 2 ≤ (s.init choices).congestionWindowSize := by
  constructor
  · show 0 < (if 0 < s.bandwidthEstimate then 1000000 / (16 * (s.bandwidthEstimate : ℚ))
      else choices.defaultSendPeriod)
    split_ifs with hb
    · have hq : (0 : ℚ) < (s.bandwidthEstimate : ℚ) := by exact_mod_cast hb
      positivity
    · exact hdefault
  · show (2 : ℚ) ≤ 16
    norm_num

/-- The handler `onLoss` keeps a positive send period and a window of 2 or more. -/
theorem onLoss_pos (choices : SpecChoices) (s : SpecDefaultCC)
    (rangeStart rangeEnd : SequenceNumber) (applyDecrease : Bool)
    (hincrease : ∀ p : ℚ, 0 < p → p ≤ choices.increasedSendPeriod p)
    (h : 0 < s.packetSendPeriod ∧ 2 ≤ s.congestionWindowSize) :
    0 < (s.onLoss choices rangeStart rangeEnd applyDecrease).packetSendPeriod
      ∧ 2 ≤ (s.onLoss choices rangeStart rangeEnd applyDecrease).congestionWindowSize := by
  unfold onLoss
  dsimp only
  split_ifs
  · exact h
  · exact ⟨lt_of_lt_of_le h.1 (hincrease _ h.1), le_max_left _ _⟩
  · exact h

/-- One call keeps a positive send period and a window of 2 or more. -/
theorem step_pos (choices : SpecChoices) (s : SpecDefaultCC) (op : SpecOp)
    (hdefault : 0 < choices.defaultSendPeriod)
    (hincrease : ∀ p : ℚ, 0 < p → p ≤ choices.increasedSendPeriod p)
    (h : 0 < s.packetSendPeriod ∧ 2 ≤ s.congestionWindowSize) :
    0 < (s.step choices op).packetSendPeriod ∧ 2 ≤ (s.step choices op).congestionWindowSize := by
  cases op
  case init => exact init_pos choices s hdefault
  case onLoss rangeStart rangeEnd applyDecrease =>
    exact onLoss_pos choices s rangeStart rangeEnd applyDecrease hincrease h
  all_goals exact h

theorem run_pos (choices : SpecChoices) (s : SpecDefaultCC) (ops : List SpecOp)
    (hdefault : 0 < choices.defaultSendPeriod)
    (hincrease : ∀ p : ℚ, 0 < p → p ≤ choices.increasedSendPeriod p)
    (h : 0 < s.packetSendPeriod ∧ 2 ≤ s.congestionWindowSize) :
    0 < (s.run choices ops).packetSendPeriod ∧ 2 ≤ (s.run choices ops).congestionWindowSize := by
  induction ops generalizing s with
  | nil => exact h
  | cons op ops ih =>
    rw [run_specOps_cons]
    exact ih _ (step_pos choices s op hdefault hincrease h)

end SpecDefaultCC

/-- C3: after every call of every sequence of event calls and setter calls (the state
after the first `n` calls, for every `n`) the packet send period is positive and the
congestion window is at least 2.  For an object of class `CongestionControl`, built by
either constructor and driven by the calls of the header, and for a `DefaultCC`
engine as `create()` returns it, driven through the interface of `CongestionControl`
with the handlers `init` and `onLoss` of the specification, whatever the outcome of the
randomised suppression, provided the default send period is positive and a decrease
does not lower the send period. -/
theorem C3_sendPeriod_pos_window_ge_floor (seq0 : SequenceNumber) (synInterval : Int)
    (ops : List Op) (n : Nat) (choices : SpecChoices) (specOps : List SpecOp) (m : Nat)
    (hdefault : 0 < choices.defaultSendPeriod)
    (hincrease : ∀ p : ℚ, 0 < p → p ≤ choices.increasedSendPeriod p) :
    (0 < ((CongestionControl.new seq0).run (ops.take n))._packetSendPeriod
      ∧ 2 ≤ ((CongestionControl.new seq0).run (ops.take n))._congestionWindowSize)
    ∧ (0 < ((CongestionControl.ofSynInterval seq0 synInterval).run
              (ops.take n))._packetSendPeriod
      ∧ 2 ≤ ((CongestionControl.ofSynInterval seq0 synInterval).run
              (ops.take n))._congestionWindowSize)
    ∧ (0 < ((SpecDefaultCC.new seq0).run choices (specOps.take m)).packetSendPeriod
      ∧ 2 ≤ ((SpecDefaultCC.new seq0).run choices (specOps.take m)).congestionWindowSize) := by
  refine ⟨?_, ?_, SpecDefaultCC.run_pos choices _ _ hdefault hincrease
    ⟨show (0 : ℚ) < 1 by norm_num, show (2 : ℚ) ≤ 16 by norm_num⟩⟩
  · simp only [CongestionControl.run_packetSendPeriod,
      CongestionControl.run_congestionWindowSize]
    exact ⟨show (0 : Int) < 1 by decide, show (2 : Int) ≤ 16 by decide⟩
  · simp only [CongestionControl.run_packetSendPeriod,
      CongestionControl.run_congestionWindowSize]
    exact ⟨show (0 : Int) < 1 by decide, show (2 : Int) ≤ 16 by decide⟩

/-- C3 at concrete engines, with the choices `SpecChoices.doubling`: the calls are
`setBandwidth(-5)`, `init()`, `setBandwidth(0)`, `onLoss(7, 9)` with the decrease
applied, `init()`, `onAck(3)`, `setReceiveRate(-1)`, `onLoss(1, 1)`, `setRTT(0)`,
and the bounds hold after each of them (`m` from 0 to 9). -/
theorem C3_sendPeriod_pos_window_ge_floor_witness :
    0 < SpecChoices.doubling.defaultSendPeriod
    ∧ (∀ p : ℚ, 0 < p → p ≤ SpecChoices.doubling.increasedSendPeriod p)
    ∧ ∀ m : Nat,
      0 < ((SpecDefaultCC.new ⟨0⟩).run SpecChoices.doubling
          (([.setBandwidth (-5), .init, .setBandwidth 0, .onLoss ⟨7⟩ ⟨9⟩ true, .init,
            .onAck ⟨3⟩, .setReceiveRate (-1), .onLoss ⟨1⟩ ⟨1⟩ true,
            .setRTT 0] : List SpecOp).take m)).packetSendPeriod
      ∧ 2 ≤ ((SpecDefaultCC.new ⟨0⟩).run SpecChoices.doubling
          (([.setBandwidth (-5), .init, .setBandwidth 0, .onLoss ⟨7⟩ ⟨9⟩ true, .init,
            .onAck ⟨3⟩, .setReceiveRate (-1), .onLoss ⟨1⟩ ⟨1⟩ true,
            .setRTT 0] : List SpecOp).take m)).congestionWindowSize :=
  ⟨show (0 : ℚ) < 1 by norm_num, fun p hp => show p ≤ 2 * p by linarith, fun m =>
    (C3_sendPeriod_pos_window_ge_floor ⟨0⟩ 0 [] 0 SpecChoices.doubling
      [.setBandwidth (-5), .init, .setBandwidth 0, .onLoss ⟨7⟩ ⟨9⟩ true, .init,
        .onAck ⟨3⟩, .setReceiveRate (-1), .onLoss ⟨1⟩ ⟨1⟩ true, .setRTT 0] m
      (show (0 : ℚ) < 1 by norm_num) (fun p hp => show p ≤ 2 * p by linarith)).2.2⟩

/-! ## ACK handling on `DefaultCC` -/

/-- C4, on the code: `onAck` leaves every `DefaultCC` exactly as it was, because
the call runs the empty `CongestionControl::onAck`.  On a freshly created
`DefaultCC` (in slow start, window 16, `_slowStartLastAck` the default sequence
number 0) `onAck(16)` leaves the window at 16, not 32, and `_slowStartLastAck`
at 0, not 16. -/
theorem C4_onAck_does_not_grow_window :
    (∀ (d : DefaultCC) (ackNum : SequenceNumber), d.onAck ackNum = d)
    ∧ (CongestionControlFactory.create {} ⟨0⟩)._slowStart = true
    ∧ (CongestionControlFactory.create {} ⟨0⟩)._congestionWindowSize = 16
    ∧ ((CongestionControlFactory.create {} ⟨0⟩).onAck ⟨16⟩)._congestionWindowSize = 16
    ∧ ((CongestionControlFactory.create {} ⟨0⟩).onAck ⟨16⟩)._congestionWindowSize ≠ 32
    ∧ ((CongestionControlFactory.create {} ⟨0⟩).onAck ⟨16⟩)._slowStartLastAck = ⟨0⟩
    ∧ ((CongestionControlFactory.create {} ⟨0⟩).onAck ⟨16⟩)._slowStartLastAck ≠ ⟨16⟩ := by
  refine ⟨fun d ackNum => rfl, ?_, ?_, ?_, ?_, ?_, ?_⟩ <;> decide

/-- C5: for every engine state, base-class or `DefaultCC`, and every pair of
sequence numbers `a`, `b` (in particular `b` equal to `a` or older than `a`),
`onAck(a)` followed by `onAck(b)` leaves exactly the state reached after
`onAck(a)` alone. -/
theorem C5_stale_onAck_changes_nothing (a b : SequenceNumber) :
    (∀ c : CongestionControl, (c.onAck a).onAck b = c.onAck a)
    ∧ (∀ d : DefaultCC, (d.onAck a).onAck b = d.onAck a) :=
  ⟨fun _ => rfl, fun _ => rfl⟩

/-! ## The factory -/

/-- C8: every call of `create()` on a `CongestionControlFactory<DefaultCC>`
returns an instance with window 16, send period 1, slow start on, loss flag off,
retransmit timeout -1 and not user-defined, SYN interval 10000; any two calls, on
the same or on different factories, return instances with equal state. -/
theorem C8_create_returns_pre_init_state (f g : CongestionControlFactory)
    (seq0 : SequenceNumber) :
    (f.create seq0)._congestionWindowSize = 16
    ∧ (f.create seq0)._packetSendPeriod = 1
    ∧ (f.create seq0)._slowStart = true
    ∧ (f.create seq0)._loss = false
    ∧ (f.create seq0)._rto = -1
    ∧ (f.create seq0)._userDefinedRto = false
    ∧ (f.create seq0).synInterval = 10000
    ∧ f.create seq0 = g.create seq0 :=
  ⟨rfl, rfl, rfl, rfl, rfl, rfl, rfl, rfl⟩

/-! ## The retransmit timeout and its user-defined flag -/

namespace CongestionControl

/-- One call keeps "not user-defined implies `_rto = -1`". -/
theorem step_rto_of_not_userDefined (c : CongestionControl) (op : Op)
    (h : c._userDefinedRto = false → c._rto = -1) :
    (c.step op)._userDefinedRto = false → (c.step op)._rto = -1 := by
  cases op
  case setRto rto => intro h2; exact absurd h2 (show ¬ (true = false) by decide)
  all_goals exact h

theorem run_rto_of_not_userDefined (c : CongestionControl) (ops : List Op)
    (h : c._userDefinedRto = false → c._rto = -1) :
    (c.run ops)._userDefinedRto = false → (c.run ops)._rto = -1 := by
  induction ops generalizing c with
  | nil => exact h
  | cons op ops ih => rw [run_cons]; exact ih _ (step_rto_of_not_userDefined c op h)

/-- One call other than `setRto(-1)` keeps "`_rto = -1` implies not user-defined". -/
theorem step_not_userDefined_of_rto (c : CongestionControl) (op : Op)
    (hop : ∀ rto, op = .setRto rto → rto ≠ -1)
    (h : c._rto = -1 → c._userDefinedRto = false) :
    (c.step op)._rto = -1 → (c.step op)._userDefinedRto = false := by
  cases op
  case setRto rto => intro h2; exact absurd h2 (hop rto rfl)
  all_goals exact h

theorem run_not_userDefined_of_rto (c : CongestionControl) (ops : List Op)
    (hops : ∀ rto, Op.setRto rto ∈ ops → rto ≠ -1)
    (h : c._rto = -1 → c._userDefinedRto = false) :
    (c.run ops)._rto = -1 → (c.run ops)._userDefinedRto = false := by
  induction ops generalizing c with
  | nil => exact h
  | cons op ops ih =>
    rw [run_cons]
    refine ih _ (fun rto hm => hops rto (List.mem_cons_of_mem _ hm)) ?_
    exact step_not_userDefined_of_rto c op
      (fun rto he => hops rto (he ▸ List.mem_cons_self _ _)) h

/-- The ACK packet interval stays below any bound that the initial value and
every `setAckInterval` argument respect. -/
theorem run_ackInterval_le (c : CongestionControl) (ops : List Op) (bound : Int)
    (hops : ∀ k, Op.setAckInterval k ∈ ops → k ≤ bound)
    (h : c._ackInterval ≤ bound) :
    (c.run ops)._ackInterval ≤ bound := by
  induction ops generalizing c with
  | nil => exact h
  | cons op ops ih =>
    rw [run_cons]
    refine ih _ (fun k hm => hops k (List.mem_cons_of_mem _ hm)) ?_
    cases op
    case setAckInterval k => exact hops k (List.mem_cons_self _ _)
    all_goals exact h

end CongestionControl

/-- C9, as stated, fails: after `setRto(-1)` on a default-built engine `_rto` is
-1 although the RTO is user-defined (`_userDefinedRto` is true). -/
theorem C9_rto_minus_one_yet_userDefined :
    ¬ (((CongestionControl.new ⟨0⟩).run [.setRto (-1)])._rto = -1
        ↔ ((CongestionControl.new ⟨0⟩).run [.setRto (-1)])._userDefinedRto = false) := by
  decide

/-- C9, amended: in every state reached from either constructor by the header's
operations, an RTO that is not user-defined is -1; and when no `setRto` call of
the sequence carried the value -1, `_rto = -1` holds exactly when the RTO is not
user-defined. -/
theorem C9_rto_userDefined (seq0 : SequenceNumber) (synInterval : Int) (ops : List Op) :
    ((((CongestionControl.new seq0).run ops)._userDefinedRto = false →
        ((CongestionControl.new seq0).run ops)._rto = -1)
      ∧ (((CongestionControl.ofSynInterval seq0 synInterval).run ops)._userDefinedRto = false →
        ((CongestionControl.ofSynInterval seq0 synInterval).run ops)._rto = -1))
    ∧ ((∀ rto, Op.setRto rto ∈ ops → rto ≠ -1) →
        ((((CongestionControl.new seq0).run ops)._rto = -1
            ↔ ((CongestionControl.new seq0).run ops)._userDefinedRto = false)
        ∧ (((CongestionControl.ofSynInterval seq0 synInterval).run ops)._rto = -1
            ↔ ((CongestionControl.ofSynInterval seq0 synInterval).run
                ops)._userDefinedRto = false))) := by
  have h1 := CongestionControl.run_rto_of_not_userDefined (CongestionControl.new seq0) ops
    (fun _ => rfl)
  have h2 := CongestionControl.run_rto_of_not_userDefined
    (CongestionControl.ofSynInterval seq0 synInterval) ops (fun _ => rfl)
  refine ⟨⟨h1, h2⟩, fun hops => ⟨⟨?_, h1⟩, ⟨?_, h2⟩⟩⟩
  · exact CongestionControl.run_not_userDefined_of_rto _ ops hops (fun _ => rfl)
  · exact CongestionControl.run_not_userDefined_of_rto _ ops hops (fun _ => rfl)

/-- C9, amended, at a concrete engine: default-built, then `setRto(500)` and
`setRTT(40)`; no `setRto` argument is -1. -/
theorem C9_rto_userDefined_witness :
    (∀ rto, Op.setRto rto ∈ [Op.setRto 500, Op.setRTT 40] → rto ≠ -1)
    ∧ (((CongestionControl.new ⟨0⟩).run [.setRto 500, .setRTT 40])._rto = -1
        ↔ ((CongestionControl.new ⟨0⟩).run [.setRto 500, .setRTT 40])._userDefinedRto = false) :=
  have hops : ∀ rto, Op.setRto rto ∈ [Op.setRto 500, Op.setRTT 40] → rto ≠ -1 := by
    intro rto hm
    simp at hm
    subst hm
    decide
  ⟨hops, ((C9_rto_userDefined ⟨0⟩ 0 [.setRto 500, .setRTT 40]).2 hops).1⟩

/-! ## The ACK packet interval and the SYN interval -/

/-- C10, as stated, fails: after `setAckInterval(10001)` on a default-built engine
`_ackInterval` is 10001, greater than `synInterval() = 10000`. -/
theorem C10_ackInterval_exceeds_synInterval :
    ¬ ((CongestionControl.new ⟨0⟩).run [.setAckInterval 10001])._ackInterval
        ≤ ((CongestionControl.new ⟨0⟩).run [.setAckInterval 10001]).synInterval := by
  decide

/-- C10, amended: `setAckInterval` stores its argument unclamped, so the ACK packet
interval is at most `synInterval()` in every state reached by a sequence of the
header's operations in which every `setAckInterval` argument is itself at most
the SYN interval, from the default constructor or from
`CongestionControl(synInterval)` with `synInterval ≥ 0`. -/
theorem C10_ackInterval_le_synInterval (seq0 : SequenceNumber) (ops : List Op) :
    ((∀ k, Op.setAckInterval k ∈ ops → k ≤ DEFAULT_SYN_INTERVAL) →
      ((CongestionControl.new seq0).run ops)._ackInterval
        ≤ ((CongestionControl.new seq0).run ops).synInterval)
    ∧ ∀ synInterval : Int, 0 ≤ synInterval →
        (∀ k, Op.setAckInterval k ∈ ops → k ≤ synInterval) →
        ((CongestionControl.ofSynInterval seq0 synInterval).run ops)._ackInterval
          ≤ ((CongestionControl.ofSynInterval seq0 synInterval).run ops).synInterval := by
  refine ⟨fun hops => ?_, fun synInterval h0 hops => ?_⟩
  · rw [CongestionControl.synInterval, CongestionControl.run_synInterval]
    exact CongestionControl.run_ackInterval_le _ ops _ hops
      (show (0 : Int) ≤ DEFAULT_SYN_INTERVAL by decide)
  · rw [CongestionControl.synInterval, CongestionControl.run_synInterval]
    exact CongestionControl.run_ackInterval_le _ ops _ hops h0

/-- C10, amended, at a concrete engine: built with SYN interval 50, then
`setAckInterval(7)` and `close()`. -/
theorem C10_ackInterval_le_synInterval_witness :
    (0 : Int) ≤ 50
    ∧ (∀ k, Op.setAckInterval k ∈ [Op.setAckInterval 7, Op.close] → k ≤ 50)
    ∧ ((CongestionControl.ofSynInterval ⟨0⟩ 50).run [.setAckInterval 7, .close])._ackInterval
        ≤ ((CongestionControl.ofSynInterval ⟨0⟩ 50).run [.setAckInterval 7, .close]).synInterval :=
  have hops : ∀ k, Op.setAckInterval k ∈ [Op.setAckInterval 7, Op.close] → k ≤ 50 := by
    intro k hm
    simp at hm
    subst hm
    decide
  ⟨by decide, hops,
    (C10_ackInterval_le_synInterval ⟨0⟩ [.setAckInterval 7, .close]).2 50 (by decide) hops⟩

/-! ## The SYN interval is fixed at construction -/

/-- C11: `synInterval()` is the constructor argument, or 10000 for the default
constructor, and every operation declared in the header, alone or in any
sequence, leaves it as it was before the call. -/
theorem C11_synInterval_immutable (seq0 : SequenceNumber) (synInterval : Int)
    (c : CongestionControl) (op : Op) (ops : List Op) :
    (CongestionControl.new seq0).synInterval = 10000
    ∧ (CongestionControl.ofSynInterval seq0 synInterval).synInterval = synInterval
    ∧ (c.step op).synInterval = c.synInterval
    ∧ (c.run ops).synInterval = c.synInterval
    ∧ ((CongestionControl.new seq0).run ops).synInterval = 10000
    ∧ ((CongestionControl.ofSynInterval seq0 synInterval).run ops).synInterval = synInterval :=
  ⟨rfl, rfl, CongestionControl.step_synInterval c op, CongestionControl.run_synInterval c ops,
    CongestionControl.run_synInterval _ ops, CongestionControl.run_synInterval _ ops⟩

/-- C12: the static `CongestionControlVirtualFactory::synInterval()` equals the
`synInterval()` of every instance a factory's `create()` returns, and that value
stays with the instance under every later sequence of calls. -/
theorem C12_static_synInterval_matches_instances (f : CongestionControlFactory)
    (seq0 : SequenceNumber) (ops : List Op) :
    CongestionControlVirtualFactory.synInterval = (f.create seq0).synInterval
    ∧ CongestionControlVirtualFactory.synInterval
        = ((f.create seq0).toCongestionControl.run ops).synInterval :=
  ⟨rfl, by rw [CongestionControl.synInterval, CongestionControl.run_synInterval]; rfl⟩

/-! ## The connection-side input setters -/

/-- C13: each of `setMSS`, `setBandwidth`, `setSendCurrentSequenceNumber`,
`setReceiveRate` and `setRTT` stores exactly its argument in its own member, and
putting the old value of that one member back yields the engine as it was before
the call: no other member changed.  In particular the send period, the window,
the ACK timer period, the ACK packet interval and the retransmit timeout are
untouched. -/
theorem C13_input_setters_frame (c : CongestionControl) (n : Int) (seqNum : SequenceNumber) :
    ((c.setMSS n)._mss = n ∧ { c.setMSS n with _mss := c._mss } = c)
    ∧ ((c.setBandwidth n)._bandwidth = n
        ∧ { c.setBandwidth n with _bandwidth := c._bandwidth } = c)
    ∧ ((c.setSendCurrentSequenceNumber seqNum)._sendCurrSeqNum = seqNum
        ∧ { c.setSendCurrentSequenceNumber seqNum with _sendCurrSeqNum := c._sendCurrSeqNum } = c)
    ∧ ((c.setReceiveRate n)._receiveRate = n
        ∧ { c.setReceiveRate n with _receiveRate := c._receiveRate } = c)
    ∧ ((c.setRTT n)._rtt = n ∧ { c.setRTT n with _rtt := c._rtt } = c)
    ∧ ∀ c2 ∈ [c.setMSS n, c.setBandwidth n, c.setSendCurrentSequenceNumber seqNum,
          c.setReceiveRate n, c.setRTT n],
        c2._packetSendPeriod = c._packetSendPeriod
        ∧ c2._congestionWindowSize = c._congestionWindowSize
        ∧ c2._ackPeriod = c._ackPeriod
        ∧ c2._ackInterval = c._ackInterval
        ∧ c2._rto = c._rto := by
  refine ⟨⟨rfl, rfl⟩, ⟨rfl, rfl⟩, ⟨rfl, rfl⟩, ⟨rfl, rfl⟩, ⟨rfl, rfl⟩, ?_⟩
  intro c2 h
  simp only [List.mem_cons, List.mem_singleton, List.not_mem_nil, or_false] at h
  rcases h with h | h | h | h | h <;> subst h <;> exact ⟨rfl, rfl, rfl, rfl, rfl⟩

/-! ## The ACK timer setter -/

/-- C22: `setAckTimer(period)` stores `min(period, synInterval())` in `_ackPeriod`
for every `period`, and putting the old `_ackPeriod` back yields the engine as it
was before the call, so no other member changed.  Hence a second call with the
same argument changes nothing, and the stored period equals the argument exactly
when `period <= synInterval()`. -/
theorem C22_setAckTimer_is_min (c : CongestionControl) (period : Int) :
    (c.setAckTimer period)._ackPeriod = min period c.synInterval
    ∧ { c.setAckTimer period with _ackPeriod := c._ackPeriod } = c
    ∧ (c.setAckTimer period).setAckTimer period = c.setAckTimer period
    ∧ ((c.setAckTimer period)._ackPeriod = period ↔ period ≤ c.synInterval) := by
  have h1 : (c.setAckTimer period)._ackPeriod = min period c.synInterval := by
    show (if period > c._synInterval then c._synInterval else period) = min period c._synInterval
    split <;> omega
  refine ⟨h1, rfl, ?_, ?_⟩
  · show ({ c with _ackPeriod :=
        if period > c._synInterval then c._synInterval else period } : CongestionControl)
      = { c with _ackPeriod := if period > c._synInterval then c._synInterval else period }
    rfl
  · rw [h1]
    show min period c._synInterval = period ↔ period ≤ c._synInterval
    omega

end udt

/-! # Voxel entity: lemmas and theorems -/

namespace polyvox

/-! ## Loops -/

theorem forLoop_inv {σ : Type} (P : σ → Prop) (bound : Int) (body : σ → Int → σ)
    (hbody : ∀ s i, P s → P (body s i)) (s : σ) (hs : P s) :
    P (forLoop bound body s) := by
  unfold forLoop
  generalize List.range bound.toNat = l
  induction l generalizing s with
  | nil => exact hs
  | cons i l ih => exact ih _ (hbody s i hs)

theorem forZYX_inv {σ : Type} (P : σ → Prop) (zBound yBound xBound : Int)
    (body : σ → Int → Int → Int → σ) (hbody : ∀ s x y z, P s → P (body s x y z))
    (s : σ) (hs : P s) : P (forZYX zBound yBound xBound body s) := by
  unfold forZYX
  exact forLoop_inv P _ _
    (fun s z hs => forLoop_inv P _ _
      (fun s y hs => forLoop_inv P _ _ (fun s x hs => hbody s x y z hs) s hs) s hs) s hs

theorem foldl_writes {σ : Type} (Inv : σ → Prop) (obs : σ → Int → Int → Int → Nat)
    (val : Int → Int → Int → Nat) (hit : Nat → Int → Int → Int → Prop)
    (body : σ → Int → σ)
    (hbody : ∀ s (i : Nat), Inv s → Inv (body s i) ∧ ∀ a b c,
      (hit i a b c → obs (body s i) a b c = val a b c)
      ∧ (¬ hit i a b c → obs (body s i) a b c = obs s a b c))
    (l : List Nat) (s : σ) (hs : Inv s) :
    Inv (l.foldl (fun (s : σ) (i : Nat) => body s (i : Int)) s) ∧ ∀ a b c,
      ((∃ i ∈ l, hit i a b c) → obs (l.foldl (fun (s : σ) (i : Nat) => body s (i : Int)) s) a b c = val a b c)
      ∧ ((¬ ∃ i ∈ l, hit i a b c) →
          obs (l.foldl (fun (s : σ) (i : Nat) => body s (i : Int)) s) a b c = obs s a b c) := by
  induction l generalizing s with
  | nil =>
    refine ⟨hs, fun a b c => ⟨?_, fun _ => rfl⟩⟩
    rintro ⟨i, hi, _⟩
    simp at hi
  | cons i l ih =>
    obtain ⟨hinv, hobs⟩ := hbody s i hs
    obtain ⟨hinv2, hobs2⟩ := ih (body s i) hinv
    refine ⟨hinv2, fun a b c => ⟨?_, ?_⟩⟩
    · rintro ⟨j, hj, hhit⟩
      by_cases hl : ∃ j ∈ l, hit j a b c
      · exact (hobs2 a b c).1 hl
      · have hji : j = i := by
          rcases List.mem_cons.1 hj with h | h
          · exact h
          · exact absurd ⟨j, h, hhit⟩ hl
        subst hji
        show obs (l.foldl _ (body s j)) a b c = _
        rw [(hobs2 a b c).2 hl]
        exact (hobs a b c).1 hhit
    · intro hno
      have hl : ¬ ∃ j ∈ l, hit j a b c := fun ⟨j, hj, hh⟩ => hno ⟨j, List.mem_cons_of_mem _ hj, hh⟩
      have hi : ¬ hit i a b c := fun hh => hno ⟨i, List.mem_cons_self _ _, hh⟩
      show obs (l.foldl _ (body s i)) a b c = _
      rw [(hobs2 a b c).2 hl]
      exact (hobs a b c).2 hi

theorem forLoop_writes {σ : Type} (Inv : σ → Prop) (obs : σ → Int → Int → Int → Nat)
    (val : Int → Int → Int → Nat) (hit : Int → Int → Int → Int → Prop)
    (body : σ → Int → σ)
    (hbody : ∀ s (i : Int), Inv s → Inv (body s i) ∧ ∀ a b c,
      (hit i a b c → obs (body s i) a b c = val a b c)
      ∧ (¬ hit i a b c → obs (body s i) a b c = obs s a b c))
    (n : Nat) (s : σ) (hs : Inv s) :
    Inv (forLoop n body s) ∧ ∀ a b c,
      ((∃ i : Int, (0 ≤ i ∧ i < (n : Int)) ∧ hit i a b c) →
        obs (forLoop n body s) a b c = val a b c)
      ∧ ((¬ ∃ i : Int, (0 ≤ i ∧ i < (n : Int)) ∧ hit i a b c) →
          obs (forLoop n body s) a b c = obs s a b c) := by
  have h := foldl_writes Inv obs val (fun i => hit (i : Int)) body
    (fun s i hs => hbody s i hs) (List.range n) s hs
  unfold forLoop
  rw [Int.toNat_ofNat]
  refine ⟨h.1, fun a b c => ⟨fun hex => (h.2 a b c).1 ?_, fun hno => (h.2 a b c).2 ?_⟩⟩
  · obtain ⟨i, ⟨h0, h1⟩, hh⟩ := hex
    refine ⟨i.toNat, List.mem_range.2 (by omega), ?_⟩
    show hit ((i.toNat : Nat) : Int) a b c
    rw [Int.toNat_of_nonneg h0]
    exact hh
  · rintro ⟨i, hi, hh⟩
    exact hno ⟨i, ⟨by omega, by have := List.mem_range.1 hi; omega⟩, hh⟩

theorem forZYX_writes {σ : Type} (Inv : σ → Prop) (obs : σ → Int → Int → Int → Nat)
    (val : Int → Int → Int → Nat) (U : Int → Int → Int → Prop)
    (body : σ → Int → Int → Int → σ)
    (hbody : ∀ s x y z, Inv s → Inv (body s x y z) ∧ ∀ a b c,
      ((a = x ∧ b = y ∧ c = z ∧ U a b c) → obs (body s x y z) a b c = val a b c)
      ∧ (¬ (a = x ∧ b = y ∧ c = z ∧ U a b c) → obs (body s x y z) a b c = obs s a b c))
    (zN yN xN : Nat) (s : σ) (hs : Inv s) :
    Inv (forZYX zN yN xN body s) ∧ ∀ a b c : Int,
      (((0 ≤ a ∧ a < (xN : Int)) ∧ (0 ≤ b ∧ b < (yN : Int)) ∧ (0 ≤ c ∧ c < (zN : Int))
          ∧ U a b c) →
        obs (forZYX zN yN xN body s) a b c = val a b c)
      ∧ (¬ ((0 ≤ a ∧ a < (xN : Int)) ∧ (0 ≤ b ∧ b < (yN : Int)) ∧ (0 ≤ c ∧ c < (zN : Int))
          ∧ U a b c) →
        obs (forZYX zN yN xN body s) a b c = obs s a b c) := by
  have hx : ∀ (y z : Int) (s : σ), Inv s →
      Inv (forLoop xN (fun s x => body s x y z) s) ∧ ∀ a b c, _ ∧ _ :=
    fun y z s hs => forLoop_writes Inv obs val (fun x a b c => a = x ∧ b = y ∧ c = z ∧ U a b c)
      (fun s x => body s x y z) (fun s x hs => hbody s x y z hs) xN s hs
  have hy : ∀ (z : Int) (s : σ), Inv s →
      Inv (forLoop yN (fun s y => forLoop xN (fun s x => body s x y z) s) s) ∧ ∀ a b c, _ ∧ _ :=
    fun z s hs => forLoop_writes Inv obs val
      (fun y a b c => ∃ x : Int, (0 ≤ x ∧ x < (xN : Int)) ∧ (a = x ∧ b = y ∧ c = z ∧ U a b c))
      (fun s y => forLoop xN (fun s x => body s x y z) s) (fun s y hs => hx y z s hs) yN s hs
  have hz := forLoop_writes Inv obs val
      (fun z a b c => ∃ y : Int, (0 ≤ y ∧ y < (yN : Int)) ∧
        ∃ x : Int, (0 ≤ x ∧ x < (xN : Int)) ∧ (a = x ∧ b = y ∧ c = z ∧ U a b c))
      (fun s z => forLoop yN (fun s y => forLoop xN (fun s x => body s x y z) s) s)
      (fun s z hs => hy z s hs) zN s hs
  unfold forZYX
  refine ⟨hz.1, fun a b c => ⟨fun hin => (hz.2 a b c).1 ?_, fun hno => (hz.2 a b c).2 ?_⟩⟩
  · obtain ⟨ha, hb, hc, hu⟩ := hin
    exact ⟨c, hc, b, hb, a, ha, rfl, rfl, rfl, hu⟩
  · rintro ⟨z, hz0, y, hy0, x, hx0, rfl, rfl, rfl, hu⟩
    exact hno ⟨hx0, hy0, hz0, hu⟩

namespace RenderablePolyVoxEntityItem

/-! ## What the voxel writers leave alone -/

theorem SameSpace.refl (e : RenderablePolyVoxEntityItem) : SameSpace e e :=
  ⟨rfl, rfl, rfl⟩

theorem SameSpace.trans {e0 e1 e2 : RenderablePolyVoxEntityItem} (h1 : SameSpace e0 e1)
    (h2 : SameSpace e1 e2) : SameSpace e0 e2 :=
  ⟨h2.1.trans h1.1, h2.2.1.trans h1.2.1, h2.2.2.trans h1.2.2⟩

theorem updateOnCount_volData (e : RenderablePolyVoxEntityItem) (x y z : Int) (v : Nat) :
    (e.updateOnCount x y z v)._volData = e._volData := by
  unfold updateOnCount
  split
  · rfl
  · dsimp only
    split_ifs <;> rfl

theorem updateOnCount_toPolyVoxEntityItem (e : RenderablePolyVoxEntityItem) (x y z : Int)
    (v : Nat) : (e.updateOnCount x y z v).toPolyVoxEntityItem = e.toPolyVoxEntityItem := by
  unfold updateOnCount
  split
  · rfl
  · dsimp only
    split_ifs <;> rfl

theorem updateOnCount_needsModelReload (e : RenderablePolyVoxEntityItem) (x y z : Int)
    (v : Nat) : (e.updateOnCount x y z v)._needsModelReload = e._needsModelReload := by
  unfold updateOnCount
  split
  · rfl
  · dsimp only
    split_ifs <;> rfl

theorem updateOnCount_sameSpace (e : RenderablePolyVoxEntityItem) (x y z : Int) (v : Nat) :
    SameSpace e (e.updateOnCount x y z v) := by
  refine ⟨?_, ?_, ?_⟩
  · rw [updateOnCount_toPolyVoxEntityItem]
  · rw [updateOnCount_toPolyVoxEntityItem]
  · rw [updateOnCount_volData]

theorem setVoxelInternal_of_none (e : RenderablePolyVoxEntityItem) (x y z : Int) (v : Nat)
    (hvol : e._volData = none) : e.setVoxelInternal x y z v = e := by
  unfold setVoxelInternal
  simp only [hvol]

theorem setVoxelInternal_of_outside (e : RenderablePolyVoxEntityItem) (x y z : Int) (v : Nat)
    (vol : SimpleVolume) (hvol : e._volData = some vol)
    (hout : inUserBounds vol e._voxelSurfaceStyle x y z = false) :
    e.setVoxelInternal x y z v = e := by
  unfold setVoxelInternal
  simp only [hvol, hout, Bool.not_false, if_true]

theorem setVoxelInternal_of_inside (e : RenderablePolyVoxEntityItem) (x y z : Int) (v : Nat)
    (vol : SimpleVolume) (hvol : e._volData = some vol)
    (hin : inUserBounds vol e._voxelSurfaceStyle x y z = true) :
    e.setVoxelInternal x y z v =
      { e.updateOnCount x y z v with
        _volData := some
          (if e._voxelSurfaceStyle = .SURFACE_EDGED_CUBIC then
            vol.setVoxelAt (x + 1) (y + 1) (z + 1) v
          else vol.setVoxelAt x y z v) } := by
  unfold setVoxelInternal
  simp only [hvol, hin, Bool.not_true, updateOnCount_volData,
    updateOnCount_toPolyVoxEntityItem]
  split_ifs <;> first | rfl | contradiction

theorem setVoxelInternal_toPolyVoxEntityItem (e : RenderablePolyVoxEntityItem) (x y z : Int)
    (v : Nat) : (e.setVoxelInternal x y z v).toPolyVoxEntityItem = e.toPolyVoxEntityItem := by
  cases hvol : e._volData with
  | none => rw [setVoxelInternal_of_none e x y z v hvol]
  | some vol =>
    cases hin : inUserBounds vol e._voxelSurfaceStyle x y z with
    | false => rw [setVoxelInternal_of_outside e x y z v vol hvol hin]
    | true =>
      rw [setVoxelInternal_of_inside e x y z v vol hvol hin]
      exact updateOnCount_toPolyVoxEntityItem e x y z v

theorem setVoxelInternal_sameSpace (e : RenderablePolyVoxEntityItem) (x y z : Int) (v : Nat) :
    SameSpace e (e.setVoxelInternal x y z v) := by
  cases hvol : e._volData with
  | none => rw [setVoxelInternal_of_none e x y z v hvol]; exact SameSpace.refl e
  | some vol =>
    cases hin : inUserBounds vol e._voxelSurfaceStyle x y z with
    | false => rw [setVoxelInternal_of_outside e x y z v vol hvol hin]; exact SameSpace.refl e
    | true =>
      rw [setVoxelInternal_of_inside e x y z v vol hvol hin]
      refine ⟨?_, ?_, ?_⟩
      · exact congrArg (·._voxelSurfaceStyle) (updateOnCount_toPolyVoxEntityItem e x y z v)
      · exact congrArg (·._voxelVolumeSize) (updateOnCount_toPolyVoxEntityItem e x y z v)
      · simp only [hvol, Option.map_some']
        split_ifs <;> rfl

theorem forZYX_sameSpace (e : RenderablePolyVoxEntityItem) (zBound yBound xBound : Int)
    (body : RenderablePolyVoxEntityItem → Int → Int → Int → RenderablePolyVoxEntityItem)
    (hbody : ∀ s x y z, SameSpace s (body s x y z)) :
    SameSpace e (forZYX zBound yBound xBound body e) :=
  forZYX_inv (SameSpace e) zBound yBound xBound body
    (fun s x y z hs => hs.trans (hbody s x y z)) e (SameSpace.refl e)

theorem sameSpace_of_eq {e0 e e2 : RenderablePolyVoxEntityItem} (h : SameSpace e0 e)
    (h1 : e2._voxelSurfaceStyle = e._voxelSurfaceStyle)
    (h2 : e2._voxelVolumeSize = e._voxelVolumeSize) (h3 : e2._volData = e._volData) :
    SameSpace e0 e2 :=
  ⟨h1.trans h.1, h2.trans h.2.1, by rw [h3]; exact h.2.2⟩

theorem decompressVolumeData_sameSpace (ext : Externals) (e : RenderablePolyVoxEntityItem) :
    SameSpace e (decompressVolumeData ext e) := by
  unfold decompressVolumeData
  dsimp only
  split_ifs
  · exact SameSpace.refl e
  · exact SameSpace.refl e
  · refine sameSpace_of_eq (forZYX_sameSpace e _ _ _ _ (fun s x y z => ?_)) rfl rfl rfl
    exact (updateOnCount_sameSpace s x y z _).trans (setVoxelInternal_sameSpace _ x y z _)

theorem compressVolumeData_sameSpace (ext : Externals) (e : RenderablePolyVoxEntityItem) :
    SameSpace e (compressVolumeData ext e) := by
  unfold compressVolumeData
  dsimp only
  split_ifs
  · exact SameSpace.refl e
  · exact sameSpace_of_eq (decompressVolumeData_sameSpace ext e) rfl rfl rfl

theorem sized_of_sameSpace {e0 e : RenderablePolyVoxEntityItem} (h : SameSpace e0 e)
    (hs : Sized e0) : Sized e := by
  obtain ⟨vol0, hv0, hl, hu⟩ := hs
  obtain ⟨h1, h2, h3⟩ := h
  rw [hv0] at h3
  cases hv : e._volData with
  | none => rw [hv] at h3; simp at h3
  | some vol =>
    rw [hv] at h3
    simp only [Option.map_some', Option.some.injEq, Prod.mk.injEq] at h3
    exact ⟨vol, hv, h3.1.trans hl, by rw [h3.2.1, hu, h1, h2]⟩

theorem zeroLoop_corners (vol1 : SimpleVolume) (zBound yBound xBound : Int) :
    (forZYX zBound yBound xBound (fun (vol : SimpleVolume) x y z => vol.setVoxelAt x y z 0)
        vol1).lowerCorner = vol1.lowerCorner
    ∧ (forZYX zBound yBound xBound (fun (vol : SimpleVolume) x y z => vol.setVoxelAt x y z 0)
        vol1).upperCorner = vol1.upperCorner :=
  forZYX_inv
    (fun (vol : SimpleVolume) =>
      vol.lowerCorner = vol1.lowerCorner ∧ vol.upperCorner = vol1.upperCorner)
    zBound yBound xBound (fun (vol : SimpleVolume) x y z => vol.setVoxelAt x y z 0)
    (fun _ _ _ _ hs => hs) vol1 ⟨rfl, rfl⟩

theorem sized_setVoxelVolumeSize (ext : Externals) (e : RenderablePolyVoxEntityItem)
    (voxelVolumeSize : Vec3) (h : e._volData = none ∨ Sized e) :
    Sized (setVoxelVolumeSize ext e voxelVolumeSize) := by
  unfold setVoxelVolumeSize
  dsimp only
  split_ifs with hret hstyle
  · rcases h with h | h
    · rw [h] at hret; simp at hret
    · exact h
  · refine sized_of_sameSpace (decompressVolumeData_sameSpace ext _) ?_
    refine ⟨_, rfl, ?_, ?_⟩
    · exact (zeroLoop_corners _ _ _ _).1
    · rw [(zeroLoop_corners _ _ _ _).2]
      simp only [hstyle, if_true]
      rfl
  · refine sized_of_sameSpace (decompressVolumeData_sameSpace ext _) ?_
    refine ⟨_, rfl, ?_, ?_⟩
    · exact (zeroLoop_corners _ _ _ _).1
    · rw [(zeroLoop_corners _ _ _ _).2]
      simp only [hstyle, if_false]
      rfl

theorem sized_updateVoxelSurfaceStyle (ext : Externals) (e : RenderablePolyVoxEntityItem)
    (voxelSurfaceStyle : PolyVoxSurfaceStyle) (h : Sized e) :
    Sized (updateVoxelSurfaceStyle ext e voxelSurfaceStyle) := by
  unfold updateVoxelSurfaceStyle
  dsimp only
  split_ifs with hedged
  · have h2 := sized_setVoxelVolumeSize ext
      { e with _volData := none, _voxelSurfaceStyle := voxelSurfaceStyle }
      e._voxelVolumeSize (Or.inl rfl)
    exact sized_of_sameSpace (sameSpace_of_eq (SameSpace.refl _) rfl rfl rfl) h2
  · obtain ⟨vol, hv, hl, hu⟩ := h
    have h1 : ¬ voxelSurfaceStyle = .SURFACE_EDGED_CUBIC := fun hc => hedged (Or.inl hc)
    have h2 : ¬ e._voxelSurfaceStyle = .SURFACE_EDGED_CUBIC := fun hc => hedged (Or.inr hc)
    refine ⟨vol, hv, hl, ?_⟩
    rw [hu]
    simp only [h1, h2, if_false]

theorem setVoxelData_sameSpace (ext : Externals) (e : RenderablePolyVoxEntityItem)
    (voxelData : VoxelData) : SameSpace e (setVoxelData ext e voxelData) := by
  unfold setVoxelData
  split_ifs
  · exact SameSpace.refl e
  · exact (sameSpace_of_eq (SameSpace.refl e) rfl rfl rfl).trans
      (decompressVolumeData_sameSpace ext _)

theorem setVoxel_sameSpace (ext : Externals) (e : RenderablePolyVoxEntityItem) (x y z : Int)
    (toValue : Nat) : SameSpace e (setVoxel ext e x y z toValue) := by
  unfold setVoxel
  split_ifs
  · exact SameSpace.refl e
  · exact (setVoxelInternal_sameSpace e x y z toValue).trans (compressVolumeData_sameSpace ext _)

theorem setAll_sameSpace (ext : Externals) (e : RenderablePolyVoxEntityItem) (toValue : Nat) :
    SameSpace e (setAll ext e toValue) := by
  unfold setAll
  split_ifs
  · exact SameSpace.refl e
  · exact (forZYX_sameSpace e _ _ _ _
      (fun s x y z => setVoxelInternal_sameSpace s x y z toValue)).trans
      (compressVolumeData_sameSpace ext _)

theorem setSphereInVolume_sameSpace (ext : Externals) (e : RenderablePolyVoxEntityItem)
    (inSphere : Int → Int → Int → Bool) (toValue : Nat) :
    SameSpace e (setSphereInVolume ext e inSphere toValue) := by
  unfold setSphereInVolume
  split_ifs
  · exact SameSpace.refl e
  · refine (forZYX_sameSpace e _ _ _ _ (fun s x y z => ?_)).trans
      (compressVolumeData_sameSpace ext _)
    dsimp only
    split_ifs
    · exact (updateOnCount_sameSpace s x y z _).trans (setVoxelInternal_sameSpace _ x y z _)
    · exact SameSpace.refl s

theorem sized_step (ext : Externals) (e : RenderablePolyVoxEntityItem) (op : VoxelOp)
    (h : Sized e) : Sized (step ext e op) := by
  cases op with
  | setVoxelVolumeSize v => exact sized_setVoxelVolumeSize ext e v (Or.inr h)
  | updateVoxelSurfaceStyle st => exact sized_updateVoxelSurfaceStyle ext e st h
  | setVoxelData d => exact sized_of_sameSpace (setVoxelData_sameSpace ext e d) h
  | setVoxel x y z v => exact sized_of_sameSpace (setVoxel_sameSpace ext e x y z v) h
  | setAll v => exact sized_of_sameSpace (setAll_sameSpace ext e v) h
  | setVoxelInVolume position v =>
    show Sized (setVoxelInVolume ext e position v)
    unfold setVoxelInVolume
    split_ifs
    · exact h
    · exact sized_of_sameSpace (setVoxel_sameSpace ext e _ _ _ v) h
  | setSphereInVolume inSphere v =>
    exact sized_of_sameSpace (setSphereInVolume_sameSpace ext e inSphere v) h

theorem sized_run (ext : Externals) (e : RenderablePolyVoxEntityItem) (ops : List VoxelOp)
    (h : Sized e) : Sized (run ext e ops) := by
  induction ops generalizing e with
  | nil => exact h
  | cons op ops ih => exact ih _ (sized_step ext e op h)

theorem sized_new (ext : Externals) (base : PolyVoxEntityItem) (needsModelReload : Bool) :
    Sized (RenderablePolyVoxEntityItem.new ext base needsModelReload) :=
  sized_setVoxelVolumeSize ext _ _ (Or.inl rfl)

theorem inUserBounds_iff_of_sized (e : RenderablePolyVoxEntityItem) (vol : SimpleVolume)
    (hv : e._volData = some vol) (h : Sized e) (x y z : Int) :
    inUserBounds vol e._voxelSurfaceStyle x y z = true ↔ InUserSpace e x y z := by
  unfold InUserSpace userWidth
  obtain ⟨vol2, hv2, hl, hu⟩ := h
  rw [hv] at hv2
  cases hv2
  unfold inUserBounds SimpleVolume.getWidth SimpleVolume.getHeight SimpleVolume.getDepth
  rw [hl, hu]
  cases hst : e._voxelSurfaceStyle <;> simp <;> omega

theorem run_voxelOps_append (ext : Externals) (e : RenderablePolyVoxEntityItem)
    (ops ops2 : List VoxelOp) : run ext e (ops ++ ops2) = run ext (run ext e ops) ops2 := by
  simp [run, List.foldl_append]

theorem setVoxelVolumeSize_size (ext : Externals) (e : RenderablePolyVoxEntityItem)
    (voxelVolumeSize : Vec3)
    (hbase : ext.baseVoxelVolumeSize voxelVolumeSize = voxelVolumeSize) :
    (setVoxelVolumeSize ext e voxelVolumeSize)._voxelVolumeSize = voxelVolumeSize := by
  unfold setVoxelVolumeSize
  dsimp only
  split_ifs with hret
  · exact hret.2.symm
  all_goals
    rw [(decompressVolumeData_sameSpace ext _).2.1]
    exact hbase

theorem setVoxelVolumeSize_surfaceStyle (ext : Externals) (e : RenderablePolyVoxEntityItem)
    (voxelVolumeSize : Vec3) :
    (setVoxelVolumeSize ext e voxelVolumeSize)._voxelSurfaceStyle = e._voxelSurfaceStyle := by
  unfold setVoxelVolumeSize
  dsimp only
  split_ifs with hret
  · rfl
  all_goals exact (decompressVolumeData_sameSpace ext _).1

theorem new_surfaceStyle (ext : Externals) (base : PolyVoxEntityItem)
    (needsModelReload : Bool) :
    (RenderablePolyVoxEntityItem.new ext base needsModelReload)._voxelSurfaceStyle
      = base._voxelSurfaceStyle :=
  setVoxelVolumeSize_surfaceStyle ext _ _

theorem updateVoxelSurfaceStyle_size (ext : Externals) (e : RenderablePolyVoxEntityItem)
    (voxelSurfaceStyle : PolyVoxSurfaceStyle)
    (hbase : ext.baseVoxelVolumeSize e._voxelVolumeSize = e._voxelVolumeSize) :
    (updateVoxelSurfaceStyle ext e voxelSurfaceStyle)._voxelVolumeSize = e._voxelVolumeSize := by
  unfold updateVoxelSurfaceStyle
  dsimp only
  split_ifs
  · exact setVoxelVolumeSize_size ext _ _ hbase
  · rfl

theorem updateVoxelSurfaceStyle_surfaceStyle (ext : Externals)
    (e : RenderablePolyVoxEntityItem) (voxelSurfaceStyle : PolyVoxSurfaceStyle) :
    (updateVoxelSurfaceStyle ext e voxelSurfaceStyle)._voxelSurfaceStyle
      = voxelSurfaceStyle := by
  unfold updateVoxelSurfaceStyle
  dsimp only
  split_ifs
  · exact setVoxelVolumeSize_surfaceStyle ext _ _
  · rfl

theorem run_styles_size (ext : Externals) (e : RenderablePolyVoxEntityItem)
    (styles : List PolyVoxSurfaceStyle)
    (hbase : ext.baseVoxelVolumeSize e._voxelVolumeSize = e._voxelVolumeSize) :
    (run ext e (styles.map VoxelOp.updateVoxelSurfaceStyle))._voxelVolumeSize
      = e._voxelVolumeSize := by
  induction styles generalizing e with
  | nil => rfl
  | cons st styles ih =>
    have h1 := updateVoxelSurfaceStyle_size ext e st hbase
    show (run ext (step ext e (.updateVoxelSurfaceStyle st)) _)._voxelVolumeSize = _
    rw [ih _ (by
      show ext.baseVoxelVolumeSize (updateVoxelSurfaceStyle ext e st)._voxelVolumeSize
        = (updateVoxelSurfaceStyle ext e st)._voxelVolumeSize
      rw [h1]
      exact hbase)]
    exact h1

/-- Rounding and conversion at some values: 2.5 and 1.5 are `float`s; 16777217
lies halfway between the `float`s 16777216 and 16777218 and goes to the even
significand, 16777219 goes to 16777220; 1/3 goes to 11184811 / 2^25; conversion
discards the fractional part, towards zero. -/
theorem roundToFloat_examples :
    roundToFloat (mkRat 5 2) = mkRat 5 2 ∧ roundToFloat (mkRat 3 2) = mkRat 3 2
    ∧ roundToFloat 16777217 = 16777216 ∧ roundToFloat 16777219 = 16777220
    ∧ roundToFloat (mkRat 1 3) = mkRat 11184811 33554432
    ∧ floatToInt (mkRat 5 2) = 2 ∧ floatToInt (mkRat (-5) 2) = -2 := by
  decide

theorem roundHalfEven_one (m : Nat) : roundHalfEven m 1 = m := by
  unfold roundHalfEven
  simp [Nat.mod_one]

/-- An integer of magnitude at most 2^24 is a `float`: rounding leaves it. -/
theorem roundToFloat_intCast (m : Int) (h : m.natAbs ≤ 2 ^ 24) :
    roundToFloat (m : ℚ) = (m : ℚ) := by
  rcases Nat.lt_or_ge m.natAbs (2 ^ 24) with hlt | hge
  · unfold roundToFloat
    simp only [Rat.num_intCast, Rat.den_intCast, Nat.mul_one, hlt, if_true, roundHalfEven_one]
    have hsign : (if m < 0 then (-1 : Int) else 1) * ((m.natAbs : Nat) : Int) = m := by
      split_ifs with hneg
      · rw [Int.ofNat_natAbs_of_nonpos (le_of_lt hneg)]
        ring
      · rw [Int.natAbs_of_nonneg (not_lt.1 hneg)]
        ring
    generalize scaleUp m.natAbs 1 149 0 = s
    have h2 : (if m < 0 then (-1 : Int) else 1) * ((m.natAbs * 2 ^ s : Nat) : Int)
        = m * ((2 ^ s : Nat) : Int) := by
      rw [Nat.cast_mul, ← mul_assoc, hsign]
    rw [h2]
    have h3 : mkRat (m * ((2 ^ s : Nat) : Int)) (1 * 2 ^ s) = mkRat m 1 :=
      Rat.mkRat_mul_right (by positivity)
    rw [one_mul] at h3
    rw [h3, Rat.mkRat_one]
  · have habs : m.natAbs = 2 ^ 24 := le_antisymm h hge
    rcases Int.natAbs_eq m with hm | hm
    · rw [hm, habs]
      decide
    · rw [hm, habs]
      decide

theorem floatToInt_intCast (n : Int) : floatToInt (n : ℚ) = n := by
  unfold floatToInt
  simp

theorem floatAddInt_intCast (n k : Int) (h : (n + k).natAbs ≤ 2 ^ 24) :
    floatAddInt (n : ℚ) k = ((n + k : Int) : ℚ) := by
  unfold floatAddInt
  simp only [Rat.num_intCast, Rat.den_intCast, Nat.cast_one, mul_one, Rat.mkRat_one]
  exact roundToFloat_intCast (n + k) h

/-- The user space of the volume allocated for an integral size component of
magnitude below 2^24 has that many voxels along the axis. -/
theorem userWidth_intCast (surfaceStyle : PolyVoxSurfaceStyle) (n : Int)
    (h : -16777216 < n ∧ n < 16777216) : userWidth surfaceStyle (n : ℚ) = n := by
  have h1 : (n + 1).natAbs ≤ 2 ^ 24 := by omega
  have h2 : (n + -1).natAbs ≤ 2 ^ 24 := by omega
  unfold userWidth
  rw [floatAddInt_intCast n 1 h1, floatAddInt_intCast n (-1) h2, floatToInt_intCast,
    floatToInt_intCast]
  split_ifs <;> omega

theorem toInt32_of_lt (v : Int) (h0 : 0 ≤ v) (h1 : v < 2147483648) : toInt32 v = v := by
  unfold toInt32
  omega

end RenderablePolyVoxEntityItem

open RenderablePolyVoxEntityItem

/-! ## Decompression of unusable data -/

/-- C17: `decompressVolumeData` leaves the whole entity (every voxel, `_onCount`,
`_needsModelReload`, `_dirtyFlags`) as it was when a stored dimension is 0 or
greater than `MAX_VOXEL_DIMENSION`, and also when the uncompressed payload length
differs from `X * Y * Z`, the product being computed in `int` without overflow
because `MAX_VOXEL_DIMENSION` cubed is below `2^31`. -/
theorem C17_decompress_skips_bad_data (ext : Externals) (e : RenderablePolyVoxEntityItem) :
    ((e._voxelData.voxelXSize = 0 ∨ e._voxelData.voxelXSize > ext.MAX_VOXEL_DIMENSION ∨
        e._voxelData.voxelYSize = 0 ∨ e._voxelData.voxelYSize > ext.MAX_VOXEL_DIMENSION ∨
        e._voxelData.voxelZSize = 0 ∨ e._voxelData.voxelZSize > ext.MAX_VOXEL_DIMENSION) →
      decompressVolumeData ext e = e)
    ∧ (ext.MAX_VOXEL_DIMENSION * ext.MAX_VOXEL_DIMENSION * ext.MAX_VOXEL_DIMENSION
          < 2147483648 →
        e._voxelData.uncompressedData.length
          ≠ e._voxelData.voxelXSize * e._voxelData.voxelYSize * e._voxelData.voxelZSize →
        decompressVolumeData ext e = e) := by
  constructor
  · intro hbad
    unfold decompressVolumeData
    simp only [hbad, if_true]
  · intro hmax hlen
    unfold decompressVolumeData
    dsimp only
    split_ifs with hbad hsize
    · rfl
    · rfl
    · exfalso
      apply hsize
      simp only [not_or, not_lt, Nat.not_lt, gt_iff_lt] at hbad
      obtain ⟨_, hx, _, hy, _, hz⟩ := hbad
      have hprod : e._voxelData.voxelXSize * e._voxelData.voxelYSize * e._voxelData.voxelZSize
          ≤ ext.MAX_VOXEL_DIMENSION * ext.MAX_VOXEL_DIMENSION * ext.MAX_VOXEL_DIMENSION :=
        Nat.mul_le_mul (Nat.mul_le_mul hx hy) hz
      rw [toInt32_of_lt _ (by positivity) (by exact_mod_cast lt_of_le_of_lt hprod hmax)]
      intro hc
      exact hlen (by exact_mod_cast hc)

/-- C17 at a concrete entity: sizes 2, 2, 1 are stored but the payload has three
bytes instead of four. -/
theorem C17_decompress_skips_bad_data_witness :
    Externals.upperBound.MAX_VOXEL_DIMENSION * Externals.upperBound.MAX_VOXEL_DIMENSION
        * Externals.upperBound.MAX_VOXEL_DIMENSION < 2147483648
    ∧ ([5, 0, 7] : List Nat).length ≠ 2 * 2 * 1
    ∧ decompressVolumeData Externals.upperBound
        (RenderablePolyVoxEntityItem.new Externals.upperBound
          { _voxelVolumeSize := ⟨2, 2, 1⟩, _voxelData := ⟨2, 2, 1, [5, 0, 7]⟩,
            _voxelSurfaceStyle := .SURFACE_MARCHING_CUBES, _locked := false, _dirtyFlags := 0 }
          true)
      = RenderablePolyVoxEntityItem.new Externals.upperBound
          { _voxelVolumeSize := ⟨2, 2, 1⟩, _voxelData := ⟨2, 2, 1, [5, 0, 7]⟩,
            _voxelSurfaceStyle := .SURFACE_MARCHING_CUBES, _locked := false, _dirtyFlags := 0 }
          true :=
  ⟨by decide, by decide,
    (C17_decompress_skips_bad_data Externals.upperBound
      (RenderablePolyVoxEntityItem.new Externals.upperBound
        { _voxelVolumeSize := ⟨2, 2, 1⟩, _voxelData := ⟨2, 2, 1, [5, 0, 7]⟩,
          _voxelSurfaceStyle := .SURFACE_MARCHING_CUBES, _locked := false, _dirtyFlags := 0 }
        true)).2 (by decide) (by decide)⟩

/-! ## The user-addressable voxel space -/

theorem run_voxelOps_nil (ext : Externals) (e : RenderablePolyVoxEntityItem) :
    run ext e [] = e := rfl

theorem run_voxelOps_cons (ext : Externals) (e : RenderablePolyVoxEntityItem) (op : VoxelOp)
    (ops : List VoxelOp) : run ext e (op :: ops) = run ext (step ext e op) ops := rfl

theorem step_setVoxelVolumeSize (ext : Externals) (e : RenderablePolyVoxEntityItem)
    (voxelVolumeSize : Vec3) :
    step ext e (.setVoxelVolumeSize voxelVolumeSize) = setVoxelVolumeSize ext e voxelVolumeSize :=
  rfl

theorem step_updateVoxelSurfaceStyle (ext : Externals) (e : RenderablePolyVoxEntityItem)
    (voxelSurfaceStyle : PolyVoxSurfaceStyle) :
    step ext e (.updateVoxelSurfaceStyle voxelSurfaceStyle)
      = updateVoxelSurfaceStyle ext e voxelSurfaceStyle :=
  rfl

/-- After any sequence of calls on an entity whose volume is allocated, the volume is
allocated and `inUserBounds` holds exactly in the user space of the volume that
`setVoxelVolumeSize` allocates for the current size and style. -/
theorem inUserBounds_run_iff (ext : Externals) (e : RenderablePolyVoxEntityItem)
    (hs : Sized e) (ops : List VoxelOp) :
    ∃ vol, (run ext e ops)._volData = some vol ∧
      ∀ x y z : Int,
        inUserBounds vol (run ext e ops)._voxelSurfaceStyle x y z = true ↔
          InUserSpace (run ext e ops) x y z := by
  have hs2 := sized_run ext e ops hs
  obtain ⟨vol, hv, _, _⟩ := id hs2
  exact ⟨vol, hv, inUserBounds_iff_of_sized _ vol hv hs2⟩

/-- When the current size has integral components of magnitude below 2^24,
`inUserBounds` holds exactly below them. -/
theorem inUserBounds_run_iff_of_integral (ext : Externals) (e : RenderablePolyVoxEntityItem)
    (hs : Sized e) (ops : List VoxelOp) (sx sy sz : Int)
    (hx : -16777216 < sx ∧ sx < 16777216) (hy : -16777216 < sy ∧ sy < 16777216)
    (hz : -16777216 < sz ∧ sz < 16777216)
    (hsize : (run ext e ops)._voxelVolumeSize = ⟨(sx : ℚ), (sy : ℚ), (sz : ℚ)⟩)
    (x y z : Int) :
    ∃ vol, (run ext e ops)._volData = some vol ∧
      (inUserBounds vol (run ext e ops)._voxelSurfaceStyle x y z = true ↔
        (0 ≤ x ∧ x < sx) ∧ (0 ≤ y ∧ y < sy) ∧ (0 ≤ z ∧ z < sz)) := by
  obtain ⟨vol, hv, hiff⟩ := inUserBounds_run_iff ext e hs ops
  refine ⟨vol, hv, ?_⟩
  rw [hiff x y z]
  unfold InUserSpace
  rw [hsize]
  dsimp only
  rw [userWidth_intCast _ sx hx, userWidth_intCast _ sy hy, userWidth_intCast _ sz hz]

/-- C18, counterexample.  From the entity of size (2, 2, 1), `setVoxelVolumeSize`
with (2.5, 1, 1) leaves the size (2.5, 1, 1), and the upper corner of the volume along
x is the `int` to which 2.5 - 1 converts, 1: `inUserBounds(2, 0, 0)` is false, yet
`0 <= 2 < 2.5`.  And `setVoxelVolumeSize` with (16777216, 1, 1) followed by a switch
to the edged style leaves that size, and the upper corner along x is the `int` to
which the `float` sum 16777216 + 1 converts; the sum rounds to 16777216, so
`inUserBounds(16777215, 0, 0)` is false, yet `0 <= 16777215 < 16777216`. -/
theorem C18_user_space_differs_from_size :
    (∃ vol,
      (run Externals.upperBound entity221 [.setVoxelVolumeSize ⟨5 / 2, 1, 1⟩])._volData
        = some vol
      ∧ (run Externals.upperBound entity221
          [.setVoxelVolumeSize ⟨5 / 2, 1, 1⟩])._voxelVolumeSize = ⟨5 / 2, 1, 1⟩
      ∧ inUserBounds vol
          (run Externals.upperBound entity221
            [.setVoxelVolumeSize ⟨5 / 2, 1, 1⟩])._voxelSurfaceStyle 2 0 0 = false
      ∧ ((0 ≤ (2 : Int) ∧ ((2 : Int) : ℚ) < 5 / 2) ∧ (0 ≤ (0 : Int) ∧ ((0 : Int) : ℚ) < 1)
          ∧ (0 ≤ (0 : Int) ∧ ((0 : Int) : ℚ) < 1)))
    ∧ (∃ vol,
      (run Externals.upperBound entity221
        [.setVoxelVolumeSize ⟨16777216, 1, 1⟩,
          .updateVoxelSurfaceStyle .SURFACE_EDGED_CUBIC])._volData = some vol
      ∧ (run Externals.upperBound entity221
          [.setVoxelVolumeSize ⟨16777216, 1, 1⟩,
            .updateVoxelSurfaceStyle .SURFACE_EDGED_CUBIC])._voxelVolumeSize
          = ⟨16777216, 1, 1⟩
      ∧ inUserBounds vol
          (run Externals.upperBound entity221
            [.setVoxelVolumeSize ⟨16777216, 1, 1⟩,
              .updateVoxelSurfaceStyle .SURFACE_EDGED_CUBIC])._voxelSurfaceStyle
          16777215 0 0 = false
      ∧ ((0 ≤ (16777215 : Int) ∧ ((16777215 : Int) : ℚ) < 16777216)
          ∧ (0 ≤ (0 : Int) ∧ ((0 : Int) : ℚ) < 1) ∧ (0 ≤ (0 : Int) ∧ ((0 : Int) : ℚ) < 1))) := by
  have hsized : Sized entity221 := sized_new _ _ _
  have hstyle0 : entity221._voxelSurfaceStyle = .SURFACE_MARCHING_CUBES :=
    new_surfaceStyle _ _ _
  constructor
  · obtain ⟨vol, hv, hiff⟩ := inUserBounds_run_iff Externals.upperBound entity221 hsized
      [.setVoxelVolumeSize ⟨5 / 2, 1, 1⟩]
    have hsize : (run Externals.upperBound entity221
        [.setVoxelVolumeSize ⟨5 / 2, 1, 1⟩])._voxelVolumeSize = ⟨5 / 2, 1, 1⟩ := by
      rw [run_voxelOps_cons, run_voxelOps_nil, step_setVoxelVolumeSize]
      exact setVoxelVolumeSize_size _ _ _ rfl
    have hstyle : (run Externals.upperBound entity221
        [.setVoxelVolumeSize ⟨5 / 2, 1, 1⟩])._voxelSurfaceStyle = .SURFACE_MARCHING_CUBES := by
      rw [run_voxelOps_cons, run_voxelOps_nil, step_setVoxelVolumeSize,
        setVoxelVolumeSize_surfaceStyle]
      exact hstyle0
    refine ⟨vol, hv, hsize, ?_, by norm_num⟩
    cases hin : inUserBounds vol (run Externals.upperBound entity221
        [.setVoxelVolumeSize ⟨5 / 2, 1, 1⟩])._voxelSurfaceStyle 2 0 0 with
    | false => rfl
    | true =>
      have h := (hiff 2 0 0).1 hin
      unfold InUserSpace at h
      rw [hsize, hstyle] at h
      have h52 : (5 / 2 : ℚ) = mkRat 5 2 := by
        rw [Rat.mkRat_eq_div]
        norm_num
      have hw : userWidth .SURFACE_MARCHING_CUBES (mkRat 5 2) = 2 := by decide
      dsimp only at h
      rw [h52, hw] at h
      omega
  · obtain ⟨vol, hv, hiff⟩ := inUserBounds_run_iff Externals.upperBound entity221 hsized
      [.setVoxelVolumeSize ⟨16777216, 1, 1⟩, .updateVoxelSurfaceStyle .SURFACE_EDGED_CUBIC]
    have hsize1 : (setVoxelVolumeSize Externals.upperBound entity221
        ⟨16777216, 1, 1⟩)._voxelVolumeSize = ⟨16777216, 1, 1⟩ :=
      setVoxelVolumeSize_size _ _ _ rfl
    have hsize : (run Externals.upperBound entity221
        [.setVoxelVolumeSize ⟨16777216, 1, 1⟩,
          .updateVoxelSurfaceStyle .SURFACE_EDGED_CUBIC])._voxelVolumeSize
        = ⟨16777216, 1, 1⟩ := by
      rw [run_voxelOps_cons, run_voxelOps_cons, run_voxelOps_nil, step_setVoxelVolumeSize,
        step_updateVoxelSurfaceStyle, updateVoxelSurfaceStyle_size _ _ _ (by rw [hsize1]; rfl)]
      exact hsize1
    have hstyle : (run Externals.upperBound entity221
        [.setVoxelVolumeSize ⟨16777216, 1, 1⟩,
          .updateVoxelSurfaceStyle .SURFACE_EDGED_CUBIC])._voxelSurfaceStyle
        = .SURFACE_EDGED_CUBIC := by
      rw [run_voxelOps_cons, run_voxelOps_cons, run_voxelOps_nil, step_setVoxelVolumeSize,
        step_updateVoxelSurfaceStyle, updateVoxelSurfaceStyle_surfaceStyle]
    refine ⟨vol, hv, hsize, ?_, by norm_num⟩
    cases hin : inUserBounds vol (run Externals.upperBound entity221
        [.setVoxelVolumeSize ⟨16777216, 1, 1⟩,
          .updateVoxelSurfaceStyle .SURFACE_EDGED_CUBIC])._voxelSurfaceStyle 16777215 0 0 with
    | false => rfl
    | true =>
      have h := (hiff 16777215 0 0).1 hin
      unfold InUserSpace at h
      rw [hsize, hstyle] at h
      have hw : userWidth .SURFACE_EDGED_CUBIC 16777216 = 16777215 := by decide
      dsimp only at h
      rw [hw] at h
      omega

/-- C18, as amended.  Take any sequence of the public voxel-editing calls
(`setVoxelVolumeSize` and `updateVoxelSurfaceStyle` among them) from construction,
and integers `sx`, `sy`, `sz` of magnitude below 2^24.  If the voxel volume size is
`(sx, sy, sz)` after the sequence, the volume is allocated and `inUserBounds(x, y, z)`
holds exactly when `0 <= x < sx`, `0 <= y < sy` and `0 <= z < sz`, in each of the
three surface styles.  And when the base-class setter stores the size `(sx, sy, sz)`
as given, the same holds after the sequence is continued by
`setVoxelVolumeSize(sx, sy, sz)` and any number of `updateVoxelSurfaceStyle` calls. -/
theorem C18_user_space_is_integral_size (ext : Externals) (base : PolyVoxEntityItem)
    (needsModelReload : Bool) (ops : List VoxelOp) (styles : List PolyVoxSurfaceStyle)
    (sx sy sz x y z : Int)
    (hx : -16777216 < sx ∧ sx < 16777216) (hy : -16777216 < sy ∧ sy < 16777216)
    (hz : -16777216 < sz ∧ sz < 16777216) :
    ((run ext (RenderablePolyVoxEntityItem.new ext base needsModelReload)
        ops)._voxelVolumeSize = ⟨(sx : ℚ), (sy : ℚ), (sz : ℚ)⟩ →
      ∃ vol,
        (run ext (RenderablePolyVoxEntityItem.new ext base needsModelReload) ops)._volData
          = some vol ∧
        (inUserBounds vol
            (run ext (RenderablePolyVoxEntityItem.new ext base needsModelReload)
              ops)._voxelSurfaceStyle x y z = true ↔
          (0 ≤ x ∧ x < sx) ∧ (0 ≤ y ∧ y < sy) ∧ (0 ≤ z ∧ z < sz)))
    ∧ (ext.baseVoxelVolumeSize ⟨(sx : ℚ), (sy : ℚ), (sz : ℚ)⟩
          = ⟨(sx : ℚ), (sy : ℚ), (sz : ℚ)⟩ →
      ∃ vol,
        (run ext (RenderablePolyVoxEntityItem.new ext base needsModelReload)
          (ops ++ [.setVoxelVolumeSize ⟨(sx : ℚ), (sy : ℚ), (sz : ℚ)⟩]
            ++ styles.map VoxelOp.updateVoxelSurfaceStyle))._volData = some vol ∧
        (inUserBounds vol
            (run ext (RenderablePolyVoxEntityItem.new ext base needsModelReload)
              (ops ++ [.setVoxelVolumeSize ⟨(sx : ℚ), (sy : ℚ), (sz : ℚ)⟩]
                ++ styles.map VoxelOp.updateVoxelSurfaceStyle))._voxelSurfaceStyle
            x y z = true ↔
          (0 ≤ x ∧ x < sx) ∧ (0 ≤ y ∧ y < sy) ∧ (0 ≤ z ∧ z < sz))) := by
  have hs := sized_new ext base needsModelReload
  refine ⟨fun hsize => inUserBounds_run_iff_of_integral ext _ hs ops sx sy sz hx hy hz hsize
    x y z, fun hbase => ?_⟩
  refine inUserBounds_run_iff_of_integral ext _ hs _ sx sy sz hx hy hz ?_ x y z
  have h1 : (run ext (run ext (RenderablePolyVoxEntityItem.new ext base needsModelReload) ops)
      [.setVoxelVolumeSize ⟨(sx : ℚ), (sy : ℚ), (sz : ℚ)⟩])._voxelVolumeSize
      = ⟨(sx : ℚ), (sy : ℚ), (sz : ℚ)⟩ := by
    rw [run_voxelOps_cons, run_voxelOps_nil, step_setVoxelVolumeSize]
    exact setVoxelVolumeSize_size ext _ _ hbase
  rw [run_voxelOps_append, run_voxelOps_append, run_styles_size ext _ styles (by rw [h1]; exact hbase)]
  exact h1

/-- C18, as amended, at a concrete entity: built at size (2, 2, 1) in the
marching-cubes style, then `setVoxel(0, 0, 0, 1)`, `setVoxelVolumeSize(3, 2, 4)` and a
switch to the edged style; the point is (2, 1, 3). -/
theorem C18_user_space_is_integral_size_witness :
    ((-16777216 < (3 : Int) ∧ (3 : Int) < 16777216)
      ∧ (-16777216 < (2 : Int) ∧ (2 : Int) < 16777216)
      ∧ (-16777216 < (4 : Int) ∧ (4 : Int) < 16777216))
    ∧ Externals.upperBound.baseVoxelVolumeSize ⟨((3 : Int) : ℚ), ((2 : Int) : ℚ), ((4 : Int) : ℚ)⟩
        = ⟨((3 : Int) : ℚ), ((2 : Int) : ℚ), ((4 : Int) : ℚ)⟩
    ∧ ∃ vol,
        (run Externals.upperBound
          (RenderablePolyVoxEntityItem.new Externals.upperBound
            { _voxelVolumeSize := ⟨2, 2, 1⟩, _voxelData := ⟨0, 0, 0, []⟩,
              _voxelSurfaceStyle := .SURFACE_MARCHING_CUBES, _locked := false,
              _dirtyFlags := 0 } true)
          ([.setVoxel 0 0 0 1]
            ++ [.setVoxelVolumeSize ⟨((3 : Int) : ℚ), ((2 : Int) : ℚ), ((4 : Int) : ℚ)⟩]
            ++ [PolyVoxSurfaceStyle.SURFACE_EDGED_CUBIC].map
                VoxelOp.updateVoxelSurfaceStyle))._volData = some vol ∧
        (inUserBounds vol
            (run Externals.upperBound
              (RenderablePolyVoxEntityItem.new Externals.upperBound
                { _voxelVolumeSize := ⟨2, 2, 1⟩, _voxelData := ⟨0, 0, 0, []⟩,
                  _voxelSurfaceStyle := .SURFACE_MARCHING_CUBES, _locked := false,
                  _dirtyFlags := 0 } true)
              ([.setVoxel 0 0 0 1]
                ++ [.setVoxelVolumeSize ⟨((3 : Int) : ℚ), ((2 : Int) : ℚ), ((4 : Int) : ℚ)⟩]
                ++ [PolyVoxSurfaceStyle.SURFACE_EDGED_CUBIC].map
                    VoxelOp.updateVoxelSurfaceStyle))._voxelSurfaceStyle
            2 1 3 = true ↔
          (0 ≤ (2 : Int) ∧ (2 : Int) < 3) ∧ (0 ≤ (1 : Int) ∧ (1 : Int) < 2)
            ∧ (0 ≤ (3 : Int) ∧ (3 : Int) < 4)) :=
  ⟨⟨by decide, by decide, by decide⟩, rfl,
    (C18_user_space_is_integral_size Externals.upperBound
      { _voxelVolumeSize := ⟨2, 2, 1⟩, _voxelData := ⟨0, 0, 0, []⟩,
        _voxelSurfaceStyle := .SURFACE_MARCHING_CUBES, _locked := false, _dirtyFlags := 0 }
      true [.setVoxel 0 0 0 1] [.SURFACE_EDGED_CUBIC] 3 2 4 2 1 3
      (by decide) (by decide) (by decide)).2 rfl⟩

/-! ## The compression round trip -/

/-- C14, on the code: on the entity of size (2, 2, 1) whose only nonzero voxel is
(1, 0, 0), `compressVolumeData` accepts the serialised data (its size is below
1150) and stores the payload `[0, 1, 0, 0]`, in which voxel (0, 1, 0) sits at
index `0 * 2 * 2 + 1 * 2 + 0 = 2`; `decompressVolumeData` then reads voxel
(0, 1, 0) from index `0 * 2 * 2 + 1 * 1 + 0 = 1`, so `getVoxel(0, 1, 0)` turns
from 0 into 1. -/
theorem C14_round_trip_changes_voxel :
    Externals.upperBound.serializedSize (entity221.setVoxelInternal 1 0 0 1).newVoxelData < 1150
    ∧ (compressVolumeData Externals.upperBound (entity221.setVoxelInternal 1 0 0 1))._voxelData
        = ⟨2, 2, 1, [0, 1, 0, 0]⟩
    ∧ (entity221.setVoxelInternal 1 0 0 1).getVoxel 0 1 0 = 0
    ∧ (compressVolumeData Externals.upperBound
        (entity221.setVoxelInternal 1 0 0 1)).getVoxel 0 1 0 = 0
    ∧ (decompressVolumeData Externals.upperBound
        (compressVolumeData Externals.upperBound
          (entity221.setVoxelInternal 1 0 0 1))).getVoxel 0 1 0 = 1 := by
  refine ⟨?_, ?_, ?_, ?_, ?_⟩ <;> decide

set_option maxRecDepth 4000

/-- C15, on the code: the entity of size (2, 2, 1) has, after `setVoxel(1, 0, 0, 1)`,
stored data that encodes its shape (only voxel (1, 0, 0) set).  Shrinking it to
(1, 1, 1) and restoring (2, 2, 1), with no edit in between, leaves
`getVoxel(0, 1, 0)` at 1 where it was 0 before the shrink. -/
theorem C15_shrink_and_restore_changes_voxel :
    (setVoxel Externals.upperBound entity221 1 0 0 1)._voxelData = ⟨2, 2, 1, [0, 1, 0, 0]⟩
    ∧ (setVoxel Externals.upperBound entity221 1 0 0 1)._voxelVolumeSize = ⟨2, 2, 1⟩
    ∧ (setVoxel Externals.upperBound entity221 1 0 0 1).getVoxel 0 1 0 = 0
    ∧ (setVoxelVolumeSize Externals.upperBound
        (setVoxelVolumeSize Externals.upperBound
          (setVoxel Externals.upperBound entity221 1 0 0 1) ⟨1, 1, 1⟩)
        ⟨2, 2, 1⟩)._voxelVolumeSize = ⟨2, 2, 1⟩
    ∧ (setVoxelVolumeSize Externals.upperBound
        (setVoxelVolumeSize Externals.upperBound
          (setVoxel Externals.upperBound entity221 1 0 0 1) ⟨1, 1, 1⟩)
        ⟨2, 2, 1⟩).getVoxel 0 1 0 = 1 := by
  refine ⟨?_, ?_, ?_, ?_, ?_⟩ <;> decide

/-! ## The on-voxel counter -/

/-- C19, on the code: `setSphereInVolume` with a sphere that covers only voxel
(0, 0, 0) and value 1, on the freshly constructed entity of size (2, 2, 1), leaves
one nonzero voxel in the user space and `_onCount` at 2: `updateOnCount` ran
twice for the voxel, once directly and once inside `setVoxelInternal`. -/
theorem C19_onCount_counts_twice :
    entity221._onCount = 0
    ∧ entity221.userOnCount = 0
    ∧ (setSphereInVolume Externals.upperBound entity221 sphereAtOrigin 1).userOnCount = 1
    ∧ (setSphereInVolume Externals.upperBound entity221 sphereAtOrigin 1)._onCount = 2 := by
  refine ⟨?_, ?_, ?_, ?_⟩ <;> decide

/-- C20, on the code: from the freshly constructed entity of size (2, 2, 1),
`setVoxel(0, 0, 0, 1)` brings `_onCount` to 1; `setSphereInVolume` with a sphere
that covers only voxel (0, 0, 0) and value 0 then decrements it twice, to 0 and
to -1, and `assert(_onCount >= 0)` evaluates to false at the second decrement. -/
theorem C20_onCount_assertion_fails :
    (run Externals.upperBound entity221 [.setVoxel 0 0 0 1])._onCount = 1
    ∧ (run Externals.upperBound entity221 [.setVoxel 0 0 0 1]).onCountAssertHeld = true
    ∧ (run Externals.upperBound entity221
        [.setVoxel 0 0 0 1, .setSphereInVolume sphereAtOrigin 0])._onCount = -1
    ∧ (run Externals.upperBound entity221
        [.setVoxel 0 0 0 1, .setSphereInVolume sphereAtOrigin 0]).onCountAssertHeld = false := by
  refine ⟨?_, ?_, ?_, ?_⟩ <;> decide

/-! ## What the voxel writers change -/

namespace RenderablePolyVoxEntityItem

theorem getVoxel_congr {e e2 : RenderablePolyVoxEntityItem} (h1 : e2._volData = e._volData)
    (h2 : e2._voxelSurfaceStyle = e._voxelSurfaceStyle) (a b c : Int) :
    e2.getVoxel a b c = e.getVoxel a b c := by
  unfold getVoxel
  rw [h1, h2]

theorem getVoxel_updateOnCount (e : RenderablePolyVoxEntityItem) (x y z : Int) (v : Nat)
    (a b c : Int) : (e.updateOnCount x y z v).getVoxel a b c = e.getVoxel a b c :=
  getVoxel_congr (updateOnCount_volData e x y z v)
    (congrArg (·._voxelSurfaceStyle) (updateOnCount_toPolyVoxEntityItem e x y z v)) a b c

theorem inUserBounds_setVoxelAt (vol : SimpleVolume) (st : PolyVoxSurfaceStyle)
    (p q r : Int) (v : Nat) (a b c : Int) :
    inUserBounds (vol.setVoxelAt p q r v) st a b c = inUserBounds vol st a b c := by
  cases st <;> rfl

theorem getVoxelAt_setVoxelAt_self (vol : SimpleVolume) (p q r : Int) (v : Nat)
    (h : vol.containsPoint p q r = true) : (vol.setVoxelAt p q r v).getVoxelAt p q r = v := by
  have h2 : (vol.setVoxelAt p q r v).containsPoint p q r = true := h
  unfold SimpleVolume.getVoxelAt
  rw [h2]
  simp [SimpleVolume.setVoxelAt]

theorem getVoxel_setVoxelInternal (e : RenderablePolyVoxEntityItem) (hs : Sized e)
    (x y z : Int) (v : Nat) (a b c : Int) :
    ((a = x ∧ b = y ∧ c = z ∧ InUserSpace e a b c) →
      (e.setVoxelInternal x y z v).getVoxel a b c = v)
    ∧ (¬ (a = x ∧ b = y ∧ c = z ∧ InUserSpace e a b c) →
      (e.setVoxelInternal x y z v).getVoxel a b c = e.getVoxel a b c) := by
  obtain ⟨vol, hv, hl, hu⟩ := id hs
  have hiff := inUserBounds_iff_of_sized e vol hv hs
  cases hin : inUserBounds vol e._voxelSurfaceStyle x y z with
  | false =>
    rw [setVoxelInternal_of_outside e x y z v vol hv hin]
    refine ⟨?_, fun _ => rfl⟩
    rintro ⟨rfl, rfl, rfl, hu2⟩
    rw [(hiff a b c).2 hu2] at hin
    cases hin
  | true =>
    rw [setVoxelInternal_of_inside e x y z v vol hv hin]
    have hst : (e.updateOnCount x y z v)._voxelSurfaceStyle = e._voxelSurfaceStyle :=
      congrArg (·._voxelSurfaceStyle) (updateOnCount_toPolyVoxEntityItem e x y z v)
    have hxyz := (hiff x y z).1 hin
    unfold InUserSpace userWidth at hxyz
    constructor
    · rintro ⟨rfl, rfl, rfl, _⟩
      unfold getVoxel
      simp only [hst]
      by_cases hedged : e._voxelSurfaceStyle = .SURFACE_EDGED_CUBIC
      · simp only [hedged, if_true, inUserBounds_setVoxelAt]
        rw [hedged] at hin
        simp only [hin, Bool.not_true, Bool.false_eq_true, if_false]
        apply getVoxelAt_setVoxelAt_self
        unfold SimpleVolume.containsPoint
        rw [hl, hu]
        simp only [hedged, if_true, Bool.and_eq_true, decide_eq_true_eq]
        simp only [hedged, if_true] at hxyz
        omega
      · simp only [hedged, if_false, inUserBounds_setVoxelAt]
        simp only [hin, Bool.not_true, Bool.false_eq_true, if_false]
        apply getVoxelAt_setVoxelAt_self
        unfold SimpleVolume.containsPoint
        rw [hl, hu]
        simp only [hedged, if_false, Bool.and_eq_true, decide_eq_true_eq]
        simp only [hedged, if_false] at hxyz
        omega
    · intro hne
      have hne2 : ¬ (a = x ∧ b = y ∧ c = z) := by
        rintro ⟨rfl, rfl, rfl⟩
        exact hne ⟨rfl, rfl, rfl, (hiff a b c).1 hin⟩
      unfold getVoxel
      simp only [hst, hv]
      by_cases hedged : e._voxelSurfaceStyle = .SURFACE_EDGED_CUBIC
      · simp only [hedged, if_true, inUserBounds_setVoxelAt]
        split_ifs
        · rfl
        · unfold SimpleVolume.getVoxelAt SimpleVolume.setVoxelAt SimpleVolume.containsPoint
          have : ¬ (a + 1 = x + 1 ∧ b + 1 = y + 1 ∧ c + 1 = z + 1) := by
            rintro ⟨h1, h2, h3⟩
            exact hne2 ⟨by omega, by omega, by omega⟩
          simp only [this, if_false]
      · simp only [hedged, if_false, inUserBounds_setVoxelAt]
        split_ifs
        · rfl
        · unfold SimpleVolume.getVoxelAt SimpleVolume.setVoxelAt SimpleVolume.containsPoint
          simp only [hne2, if_false]

end RenderablePolyVoxEntityItem

namespace RenderablePolyVoxEntityItem

theorem inUserSpace_of_sameSpace {e0 e : RenderablePolyVoxEntityItem} (h : SameSpace e0 e)
    (x y z : Int) : InUserSpace e x y z ↔ InUserSpace e0 x y z := by
  unfold InUserSpace
  rw [h.2.1, h.1]

/-- What `decompressVolumeData` leaves in the user space when the stored sizes pass
its checks and the payload has the expected length: inside the stored sizes each
user voxel is the byte at `(z * voxelYSize * voxelXSize) + (y * voxelZSize) + x`,
elsewhere it is unchanged. -/
theorem getVoxel_decompressVolumeData (ext : Externals) (e : RenderablePolyVoxEntityItem)
    (hs : Sized e)
    (hdims : ¬ (e._voxelData.voxelXSize = 0 ∨ e._voxelData.voxelXSize > ext.MAX_VOXEL_DIMENSION ∨
        e._voxelData.voxelYSize = 0 ∨ e._voxelData.voxelYSize > ext.MAX_VOXEL_DIMENSION ∨
        e._voxelData.voxelZSize = 0 ∨ e._voxelData.voxelZSize > ext.MAX_VOXEL_DIMENSION))
    (hlen : (e._voxelData.uncompressedData.length : Int)
      = toInt32 ((e._voxelData.voxelXSize : Int) * e._voxelData.voxelYSize
          * e._voxelData.voxelZSize))
    (a b c : Int) :
    (((0 ≤ a ∧ a < (e._voxelData.voxelXSize : Int)) ∧ (0 ≤ b ∧ b < (e._voxelData.voxelYSize : Int))
        ∧ (0 ≤ c ∧ c < (e._voxelData.voxelZSize : Int)) ∧ InUserSpace e a b c) →
      (decompressVolumeData ext e).getVoxel a b c = e._voxelData.readAt a b c)
    ∧ (¬ ((0 ≤ a ∧ a < (e._voxelData.voxelXSize : Int))
        ∧ (0 ≤ b ∧ b < (e._voxelData.voxelYSize : Int))
        ∧ (0 ≤ c ∧ c < (e._voxelData.voxelZSize : Int)) ∧ InUserSpace e a b c) →
      (decompressVolumeData ext e).getVoxel a b c = e.getVoxel a b c) := by
  have hloop := forZYX_writes (SameSpace e) getVoxel e._voxelData.readAt (InUserSpace e)
    (fun (s : RenderablePolyVoxEntityItem) x y z =>
      (s.updateOnCount x y z (e._voxelData.readAt x y z)).setVoxelInternal x y z
        (e._voxelData.readAt x y z))
    (fun s x y z hsame => by
      have hs1 : SameSpace e (s.updateOnCount x y z (e._voxelData.readAt x y z)) :=
        hsame.trans (updateOnCount_sameSpace s x y z _)
      have hw := getVoxel_setVoxelInternal _ (sized_of_sameSpace hs1 hs) x y z
        (e._voxelData.readAt x y z)
      refine ⟨hs1.trans (setVoxelInternal_sameSpace _ x y z _), fun a b c => ⟨?_, ?_⟩⟩
      · rintro ⟨rfl, rfl, rfl, hu⟩
        exact (hw a b c).1 ⟨rfl, rfl, rfl, (inUserSpace_of_sameSpace hs1 a b c).2 hu⟩
      · intro hno
        rw [(hw a b c).2 (fun ⟨h1, h2, h3, hu⟩ =>
          hno ⟨h1, h2, h3, (inUserSpace_of_sameSpace hs1 a b c).1 hu⟩)]
        exact getVoxel_updateOnCount s x y z _ a b c)
    e._voxelData.voxelZSize e._voxelData.voxelYSize e._voxelData.voxelXSize e (SameSpace.refl e)
  have heq : ∀ a b c, (decompressVolumeData ext e).getVoxel a b c
      = (forZYX (e._voxelData.voxelZSize : Int) (e._voxelData.voxelYSize : Int)
          (e._voxelData.voxelXSize : Int)
          (fun (s : RenderablePolyVoxEntityItem) x y z =>
            (s.updateOnCount x y z (e._voxelData.readAt x y z)).setVoxelInternal x y z
              (e._voxelData.readAt x y z)) e).getVoxel a b c := by
    intro a b c
    unfold decompressVolumeData
    simp only [hdims, if_false, hlen, ne_eq, not_true_eq_false]
    exact getVoxel_congr rfl rfl a b c
  rw [heq]
  exact hloop.2 a b c

end RenderablePolyVoxEntityItem

namespace RenderablePolyVoxEntityItem

theorem forZYX_toPolyVoxEntityItem (e : RenderablePolyVoxEntityItem) (zBound yBound xBound : Int)
    (body : RenderablePolyVoxEntityItem → Int → Int → Int → RenderablePolyVoxEntityItem)
    (hbody : ∀ s x y z, (body s x y z).toPolyVoxEntityItem = s.toPolyVoxEntityItem) :
    (forZYX zBound yBound xBound body e).toPolyVoxEntityItem = e.toPolyVoxEntityItem :=
  forZYX_inv (fun s => s.toPolyVoxEntityItem = e.toPolyVoxEntityItem) zBound yBound xBound body
    (fun s x y z hs => (hbody s x y z).trans hs) e rfl

theorem decompressVolumeData_voxelData (ext : Externals) (e : RenderablePolyVoxEntityItem) :
    (decompressVolumeData ext e)._voxelData = e._voxelData := by
  unfold decompressVolumeData
  dsimp only
  split_ifs
  · rfl
  · rfl
  · exact congrArg (·._voxelData) (forZYX_toPolyVoxEntityItem e _ _ _ _ (fun s x y z =>
      (setVoxelInternal_toPolyVoxEntityItem _ x y z _).trans
        (updateOnCount_toPolyVoxEntityItem s x y z _)))

theorem new_voxelData (ext : Externals) (base : PolyVoxEntityItem) (needsModelReload : Bool) :
    (RenderablePolyVoxEntityItem.new ext base needsModelReload)._voxelData = base._voxelData := by
  unfold RenderablePolyVoxEntityItem.new setVoxelVolumeSize
  dsimp only
  split_ifs with hret
  · simp at hret
  all_goals exact decompressVolumeData_voxelData ext _

theorem newVoxelData_length (e : RenderablePolyVoxEntityItem) :
    e.newVoxelData.uncompressedData.length
      = (toInt32 ((toQuint16 (floatToInt e._voxelVolumeSize.x) : Int)
          * toQuint16 (floatToInt e._voxelVolumeSize.y)
          * toQuint16 (floatToInt e._voxelVolumeSize.z))).toNat := by
  unfold newVoxelData
  dsimp only
  exact forZYX_inv
    (fun (data : List Nat) => data.length
      = (toInt32 ((toQuint16 (floatToInt e._voxelVolumeSize.x) : Int)
          * toQuint16 (floatToInt e._voxelVolumeSize.y)
          * toQuint16 (floatToInt e._voxelVolumeSize.z))).toNat)
    _ _ _ _ (fun data x y z h => by dsimp only at h ⊢; rw [List.length_set]; exact h) _ (List.length_replicate _ _)

/-- What `compressVolumeData` does when the serialised data is too large: it keeps
`_voxelData` and, when the kept data passes the checks of `decompressVolumeData`,
sets each user voxel inside the stored sizes to the byte at
`(z * voxelYSize * voxelXSize) + (y * voxelZSize) + x` of its payload. -/
theorem compressVolumeData_rejected (ext : Externals) (e : RenderablePolyVoxEntityItem)
    (hs : Sized e) (hbig : ¬ ext.serializedSize e.newVoxelData < 1150) :
    (compressVolumeData ext e)._voxelData = e._voxelData
    ∧ (¬ (e._voxelData.voxelXSize = 0 ∨ e._voxelData.voxelXSize > ext.MAX_VOXEL_DIMENSION ∨
          e._voxelData.voxelYSize = 0 ∨ e._voxelData.voxelYSize > ext.MAX_VOXEL_DIMENSION ∨
          e._voxelData.voxelZSize = 0 ∨ e._voxelData.voxelZSize > ext.MAX_VOXEL_DIMENSION) →
        (e._voxelData.uncompressedData.length : Int)
          = toInt32 ((e._voxelData.voxelXSize : Int) * e._voxelData.voxelYSize
              * e._voxelData.voxelZSize) →
        ∀ a b c : Int,
          ((0 ≤ a ∧ a < (e._voxelData.voxelXSize : Int))
            ∧ (0 ≤ b ∧ b < (e._voxelData.voxelYSize : Int))
            ∧ (0 ≤ c ∧ c < (e._voxelData.voxelZSize : Int)) ∧ InUserSpace e a b c) →
          (compressVolumeData ext e).getVoxel a b c = e._voxelData.readAt a b c) := by
  have hc : ∀ a b c, (compressVolumeData ext e).getVoxel a b c
      = (decompressVolumeData ext e).getVoxel a b c := by
    intro a b c
    unfold compressVolumeData
    simp only [hbig, if_false]
    exact getVoxel_congr rfl rfl a b c
  constructor
  · unfold compressVolumeData
    simp only [hbig, if_false]
    exact decompressVolumeData_voxelData ext e
  · intro hdims hlen a b c hin
    rw [hc]
    exact (getVoxel_decompressVolumeData ext e hs hdims hlen a b c).1 hin

end RenderablePolyVoxEntityItem

/-! ## Data too large for the wire -/

namespace RenderablePolyVoxEntityItem

theorem decompressVolumeData_locked (ext : Externals) (e : RenderablePolyVoxEntityItem) :
    (decompressVolumeData ext e)._locked = e._locked := by
  unfold decompressVolumeData
  dsimp only
  split_ifs
  · rfl
  · rfl
  · exact congrArg (·._locked) (forZYX_toPolyVoxEntityItem e _ _ _ _ (fun s x y z =>
      (setVoxelInternal_toPolyVoxEntityItem _ x y z _).trans
        (updateOnCount_toPolyVoxEntityItem s x y z _)))

theorem new_locked (ext : Externals) (base : PolyVoxEntityItem) (needsModelReload : Bool) :
    (RenderablePolyVoxEntityItem.new ext base needsModelReload)._locked = base._locked := by
  unfold RenderablePolyVoxEntityItem.new setVoxelVolumeSize
  dsimp only
  split_ifs with hret
  · simp at hret
  all_goals exact decompressVolumeData_locked ext _

end RenderablePolyVoxEntityItem

theorem getD_map_range (f : Nat → Nat) (n i : Nat) (h : i < n) :
    ((List.range n).map f).getD i 0 = f i := by
  simp [List.getD_eq_getElem?_getD, List.getElem?_range h]

/-- An edit by `setVoxel` on a freshly constructed, unlocked entity whose
serialised data is too large: the stored data stays, and each user voxel inside
the stored sizes ends as the byte `readAt` finds for it. -/
theorem setVoxel_new_rejected (ext : Externals) (base : PolyVoxEntityItem)
    (needsModelReload : Bool) (x y z : Int) (toValue : Nat)
    (hbase : ∀ v, ext.baseVoxelVolumeSize v = v) (hlocked : base._locked = false)
    (hbig : ¬ ext.serializedSize
      ((RenderablePolyVoxEntityItem.new ext base needsModelReload).setVoxelInternal
        x y z toValue).newVoxelData < 1150)
    (hdims : ¬ (base._voxelData.voxelXSize = 0 ∨
        base._voxelData.voxelXSize > ext.MAX_VOXEL_DIMENSION ∨
        base._voxelData.voxelYSize = 0 ∨ base._voxelData.voxelYSize > ext.MAX_VOXEL_DIMENSION ∨
        base._voxelData.voxelZSize = 0 ∨ base._voxelData.voxelZSize > ext.MAX_VOXEL_DIMENSION))
    (hlen : (base._voxelData.uncompressedData.length : Int)
      = toInt32 ((base._voxelData.voxelXSize : Int) * base._voxelData.voxelYSize
          * base._voxelData.voxelZSize)) :
    (setVoxel ext (RenderablePolyVoxEntityItem.new ext base needsModelReload)
        x y z toValue)._voxelData = base._voxelData
    ∧ ∀ a b c : Int,
        (0 ≤ a ∧ a < (base._voxelData.voxelXSize : Int)) →
        (0 ≤ b ∧ b < (base._voxelData.voxelYSize : Int)) →
        (0 ≤ c ∧ c < (base._voxelData.voxelZSize : Int)) →
        (0 ≤ a ∧ a < userWidth base._voxelSurfaceStyle base._voxelVolumeSize.x) →
        (0 ≤ b ∧ b < userWidth base._voxelSurfaceStyle base._voxelVolumeSize.y) →
        (0 ≤ c ∧ c < userWidth base._voxelSurfaceStyle base._voxelVolumeSize.z) →
        (setVoxel ext (RenderablePolyVoxEntityItem.new ext base needsModelReload)
          x y z toValue).getVoxel a b c = base._voxelData.readAt a b c := by
  generalize hnew : RenderablePolyVoxEntityItem.new ext base needsModelReload = e0 at hbig ⊢
  have hl0 : e0._locked = false := by
    rw [← hnew, new_locked]
    exact hlocked
  have hd0 : e0._voxelData = base._voxelData := by rw [← hnew, new_voxelData]
  have hs0 : e0._voxelVolumeSize = base._voxelVolumeSize := by
    rw [← hnew]
    exact setVoxelVolumeSize_size ext _ _ (hbase _)
  have hst0 : e0._voxelSurfaceStyle = base._voxelSurfaceStyle := by
    rw [← hnew]
    exact new_surfaceStyle ext base needsModelReload
  have hsz0 : Sized e0 := by
    rw [← hnew]
    exact sized_new ext base needsModelReload
  have hset : setVoxel ext e0 x y z toValue
      = compressVolumeData ext (e0.setVoxelInternal x y z toValue) := by
    unfold setVoxel
    rw [hl0]
    rfl
  have hb := setVoxelInternal_toPolyVoxEntityItem e0 x y z toValue
  have hd : (e0.setVoxelInternal x y z toValue)._voxelData = base._voxelData :=
    (congrArg (·._voxelData) hb).trans hd0
  have hs : (e0.setVoxelInternal x y z toValue)._voxelVolumeSize = base._voxelVolumeSize :=
    (congrArg (·._voxelVolumeSize) hb).trans hs0
  have hst : (e0.setVoxelInternal x y z toValue)._voxelSurfaceStyle
      = base._voxelSurfaceStyle :=
    (congrArg (·._voxelSurfaceStyle) hb).trans hst0
  have hsz : Sized (e0.setVoxelInternal x y z toValue) :=
    sized_of_sameSpace (setVoxelInternal_sameSpace e0 x y z toValue) hsz0
  have hrej := compressVolumeData_rejected ext (e0.setVoxelInternal x y z toValue) hsz hbig
  rw [hset]
  refine ⟨hrej.1.trans hd, fun a b c ha hb hc hua hub huc => ?_⟩
  rw [hrej.2 (by rw [hd]; exact hdims) (by rw [hd]; exact hlen) a b c
    (by rw [hd]; unfold InUserSpace; rw [hs, hst]; exact ⟨ha, hb, hc, hua, hub, huc⟩), hd]

/-- The serialised data of an edit on a freshly constructed entity of size
(24, 2, 25) is too large when zlib stores its payload without gain. -/
theorem stored_rejects_size_24_2_25 (base : PolyVoxEntityItem) (needsModelReload : Bool)
    (x y z : Int) (toValue : Nat) (hsize : base._voxelVolumeSize = ⟨24, 2, 25⟩) :
    ¬ Externals.stored.serializedSize
      ((RenderablePolyVoxEntityItem.new Externals.stored base needsModelReload).setVoxelInternal
        x y z toValue).newVoxelData < 1150 := by
  have hstored : ∀ d : VoxelData,
      Externals.stored.serializedSize d = 6 + 4 + 4 + (d.uncompressedData.length + 11) :=
    fun _ => rfl
  have hs : ((RenderablePolyVoxEntityItem.new Externals.stored base
      needsModelReload).setVoxelInternal x y z toValue)._voxelVolumeSize = ⟨24, 2, 25⟩ :=
    ((congrArg (·._voxelVolumeSize) (setVoxelInternal_toPolyVoxEntityItem _ x y z toValue)).trans
      (setVoxelVolumeSize_size Externals.stored _ _ rfl)).trans hsize
  rw [hstored, newVoxelData_length, hs]
  decide

theorem noisePayload_length : noisePayload.length = 1200 := by
  unfold noisePayload
  rw [List.length_map, List.length_range]

theorem noisePayload_getD (i : Nat) (h : i < 1200) : noisePayload.getD i 0 = noiseAt i := by
  unfold noisePayload
  exact getD_map_range noiseAt 1200 i h

theorem writtenAt_mk (xSize ySize zSize : Nat) (data : List Nat) (x y z : Int) :
    (⟨xSize, ySize, zSize, data⟩ : VoxelData).writtenAt x y z
      = data.getD (z * ySize * xSize + y * xSize + x).toNat 0 := rfl

theorem readAt_mk (xSize ySize zSize : Nat) (data : List Nat) (x y z : Int) :
    (⟨xSize, ySize, zSize, data⟩ : VoxelData).readAt x y z
      = data.getD ((z * ySize * xSize) + (y * zSize) + x).toNat 0 := rfl

/-- C16, on the code: the entity constructed from `noiseBase` (size (24, 2, 25))
holds stored data that encodes the value 30 for voxel (0, 1, 0) (index
`0 * 2 * 24 + 1 * 24 + 0 = 24`).  `setVoxel(0, 0, 0, 7)` produces serialised data
of 1150 bytes or more, so `compressVolumeData` keeps the stored data; the revert
leaves `getVoxel(0, 1, 0)` at 163, the byte at index `0 * 2 * 24 + 1 * 25 + 0 = 25`,
which is the value the stored data encodes for voxel (1, 1, 0). -/
theorem C16_revert_disagrees_with_retained_data :
    ¬ Externals.stored.serializedSize
        ((RenderablePolyVoxEntityItem.new Externals.stored noiseBase true).setVoxelInternal
          0 0 0 7).newVoxelData < 1150
    ∧ (setVoxel Externals.stored (RenderablePolyVoxEntityItem.new Externals.stored noiseBase true)
        0 0 0 7)._voxelData = ⟨24, 2, 25, noisePayload⟩
    ∧ (⟨24, 2, 25, noisePayload⟩ : VoxelData).writtenAt 0 1 0 = 30
    ∧ (⟨24, 2, 25, noisePayload⟩ : VoxelData).writtenAt 1 1 0 = 163
    ∧ (setVoxel Externals.stored (RenderablePolyVoxEntityItem.new Externals.stored noiseBase true)
        0 0 0 7).getVoxel 0 1 0 = 163 := by
  have hbig := stored_rejects_size_24_2_25 noiseBase true 0 0 0 7 rfl
  have hdata : noiseBase._voxelData = ⟨24, 2, 25, noisePayload⟩ := rfl
  have hlen : (noiseBase._voxelData.uncompressedData.length : Int)
      = toInt32 ((noiseBase._voxelData.voxelXSize : Int) * noiseBase._voxelData.voxelYSize
          * noiseBase._voxelData.voxelZSize) := by
    rw [hdata]
    dsimp only
    rw [noisePayload_length]
    decide
  have hrej := setVoxel_new_rejected Externals.stored noiseBase true 0 0 0 7 (fun _ => rfl) rfl
    hbig (by decide) hlen
  have hw1 : (⟨24, 2, 25, noisePayload⟩ : VoxelData).writtenAt 0 1 0 = 30 := by
    rw [writtenAt_mk]
    have hidx : ((0 : Int) * ((2 : Nat) : Int) * ((24 : Nat) : Int)
        + 1 * ((24 : Nat) : Int) + 0).toNat = 24 := by decide
    rw [hidx, noisePayload_getD 24 (by decide)]
    decide
  have hw2 : (⟨24, 2, 25, noisePayload⟩ : VoxelData).writtenAt 1 1 0 = 163 := by
    rw [writtenAt_mk]
    have hidx : ((0 : Int) * ((2 : Nat) : Int) * ((24 : Nat) : Int)
        + 1 * ((24 : Nat) : Int) + 1).toNat = 25 := by decide
    rw [hidx, noisePayload_getD 25 (by decide)]
    decide
  have hr : (⟨24, 2, 25, noisePayload⟩ : VoxelData).readAt 0 1 0 = 163 := by
    rw [readAt_mk]
    have hidx : (((0 : Int) * ((2 : Nat) : Int) * ((24 : Nat) : Int))
        + (1 * ((25 : Nat) : Int)) + 0).toNat = 25 := by decide
    rw [hidx, noisePayload_getD 25 (by decide)]
    decide
  refine ⟨hbig, hrej.1.trans hdata, hw1, hw2, ?_⟩
  rw [hrej.2 0 1 0 (by decide) (by decide) (by decide) (by decide) (by decide) (by decide),
    hdata]
  exact hr

/-! ## The shape type -/

/-- C21, on the code: from the freshly constructed entity of size (2, 2, 1),
`setSphereInVolume` over voxel (0, 0, 0) with value 1 followed by
`setVoxel(0, 0, 0, 0)` leaves no nonzero voxel in the user space, `_onCount` at 1
and `getShapeType()` at `SHAPE_TYPE_COMPOUND`.  And `setVoxel(0, 0, 0, 1)`,
`setVoxel(1, 0, 0, 1)` followed by `setSphereInVolume` over voxel (0, 0, 0) with
value 0 leaves voxel (1, 0, 0) nonzero, `_onCount` at 0 and `getShapeType()` at
`SHAPE_TYPE_NONE`. -/
theorem C21_shapeType_disagrees_with_voxels :
    (run Externals.upperBound entity221
        [.setSphereInVolume sphereAtOrigin 1, .setVoxel 0 0 0 0]).userOnCount = 0
    ∧ (run Externals.upperBound entity221
        [.setSphereInVolume sphereAtOrigin 1, .setVoxel 0 0 0 0])._onCount = 1
    ∧ (run Externals.upperBound entity221
        [.setSphereInVolume sphereAtOrigin 1, .setVoxel 0 0 0 0]).getShapeType
        = .SHAPE_TYPE_COMPOUND
    ∧ (run Externals.upperBound entity221
        [.setVoxel 0 0 0 1, .setVoxel 1 0 0 1,
          .setSphereInVolume sphereAtOrigin 0]).getVoxel 1 0 0 = 1
    ∧ (run Externals.upperBound entity221
        [.setVoxel 0 0 0 1, .setVoxel 1 0 0 1,
          .setSphereInVolume sphereAtOrigin 0])._onCount = 0
    ∧ (run Externals.upperBound entity221
        [.setVoxel 0 0 0 1, .setVoxel 1 0 0 1,
          .setSphereInVolume sphereAtOrigin 0]).getShapeType = .SHAPE_TYPE_NONE := by
  refine ⟨?_, ?_, ?_, ?_, ?_, ?_⟩ <;> decide

end polyvox
